import Mathlib

/-!
Learning Tracker client (`frontend/src/App.js`)

A shallow embedding of the React client of the learning tracker: the values the
client manipulates (form objects, numbers parsed from text, fetch requests), the
event handlers of its components as state-passing functions, and the rendering
decisions of its views as plain functions of the props.

Conventions of the embedding.

* A JavaScript object built by spreading and overriding keys is an association
  list in insertion order (`Obj`); a missing key reads as `undefined`.
* `await fetch(..)` is resolved by an explicit `FetchOutcome` supplied by the
  environment: a response (with its `ok` flag and decoded JSON) or a rejection.
* An `async` function returns a `Settled` value (fulfilled or rejected) together
  with the list of effects it performed, in program order.
* A number parsed from text is the binary64 value nearest to the decimal
  literal (ties to even), held as the exact rational it denotes, with the two
  infinities, `NaN` and the negative zero apart. The statistics sent by the
  server are held as rationals.
* The operations of the server-side core (progress aggregation, goal lifecycle,
  resource ledger) are not part of `App.js`; they live in the namespace `Core`
  and are modelled from the specification.
-/

namespace BP

/-! ## JavaScript values -/

/-- A JavaScript number: `NaN`, an infinity, the negative zero, or a finite
value (`fin 0` is the positive zero). -/
inductive JSNum where
  | nan : JSNum
  | inf (negative : Bool) : JSNum
  | negZero : JSNum
  | fin (q : ℚ) : JSNum
  deriving DecidableEq

/-- The number is strictly below zero (`NaN` and the negative zero are not). -/
def JSNum.isNegative : JSNum → Prop
  | .nan => False
  | .inf negative => negative = true
  | .negZero => False
  | .fin q => q < 0

instance (n : JSNum) : Decidable n.isNegative := by
  cases n <;> unfold JSNum.isNegative <;> infer_instance

/-- The values that occur in the client's form objects and props. -/
inductive JSVal where
  | undefined : JSVal
  | null : JSVal
  | bool (b : Bool) : JSVal
  | num (n : JSNum) : JSVal
  | str (s : String) : JSVal
  | arr (xs : List String) : JSVal
  deriving DecidableEq

/-- The value is of JavaScript type `number` (`typeof v === 'number'`). -/
def JSVal.isNumber : JSVal → Bool
  | .num _ => true
  | _ => false

/-- An object in insertion order of its keys. -/
abbrev Obj := List (String × JSVal)

/-- Property read `o[k]`: the value of the first entry for `k`, else `undefined`. -/
def Obj.get : Obj → String → JSVal
  | [], _ => .undefined
  | (k', v) :: rest, k => if k' = k then v else Obj.get rest k

/-- Own keys of the object, in order. -/
def Obj.keys (o : Obj) : List String := o.map Prod.fst

/-- The object literal `{...o, [k]: v}`: an existing key keeps its position and
takes the new value, a new key is appended. -/
def Obj.set : Obj → String → JSVal → Obj
  | [], k, v => [(k, v)]
  | (k', v') :: rest, k, v =>
      if k' = k then (k', v) :: rest else (k', v') :: Obj.set rest k v

/-! ## Text helpers: `String.prototype.trim`, `split(',')`, `parseFloat` -/

/-- White space and line terminators stripped by `trim` and skipped by
`parseFloat` (ECMAScript `WhiteSpace` and `LineTerminator`). -/
def isJSWhitespace (c : Char) : Bool :=
  let n := c.toNat
  n = 0x09 || n = 0x0A || n = 0x0B || n = 0x0C || n = 0x0D || n = 0x20 ||
  n = 0xA0 || n = 0x1680 || (0x2000 ≤ n && n ≤ 0x200A) || n = 0x2028 ||
  n = 0x2029 || n = 0x202F || n = 0x205F || n = 0x3000 || n = 0xFEFF

/-- Drop leading white space. -/
def trimStart (cs : List Char) : List Char := cs.dropWhile isJSWhitespace

/-- Trim on a list of characters: strip white space at both ends. -/
def trimChars (cs : List Char) : List Char :=
  (trimStart (trimStart cs).reverse).reverse

/-- The method `s.trim()`. -/
def jsTrim (s : String) : String := String.mk (trimChars s.toList)

/-- Split a character list on `sep`; the result always has at least one segment
(`''.split(',')` is `['']`). -/
def splitChars (sep : Char) : List Char → List (List Char)
  | [] => [[]]
  | c :: cs =>
      if c = sep then [] :: splitChars sep cs
      else
        match splitChars sep cs with
        | [] => [[c]]
        | seg :: segs => (c :: seg) :: segs

/-- The method `s.split(',')`. -/
def jsSplitComma (s : String) : List String :=
  (splitChars ',' s.toList).map String.mk

/-- A decimal literal read by `parseFloat`: sign, digits with the decimal point
removed, and the power of ten that scales them. -/
structure Decimal where
  negative : Bool
  mantissa : Nat
  exponent : Int
  deriving DecidableEq

/-- What the scanner of `parseFloat` found at the start of the text. -/
inductive Scanned where
  | none : Scanned
  | infinity (negative : Bool) : Scanned
  | decimal (d : Decimal) : Scanned
  deriving DecidableEq

/-- Value of a run of decimal digits, most significant first, continuing `acc`. -/
def digitsValue (acc : Nat) : List Char → Nat
  | [] => acc
  | c :: cs => digitsValue (acc * 10 + (c.toNat - '0'.toNat)) cs

/-- Optional sign at the head of the text: whether it is `-`, and the rest. -/
def takeSign : List Char → Bool × List Char
  | '-' :: cs => (true, cs)
  | '+' :: cs => (false, cs)
  | cs => (false, cs)

/-- Exponent part `e[+-]digits` at the head of the text, `0` when there is none
(an `e` without digits is not part of the literal). -/
def scanExponent : List Char → Int
  | c :: cs =>
      if c = 'e' || c = 'E' then
        let (negative, rest) := takeSign cs
        let ds := rest.takeWhile Char.isDigit
        if ds.isEmpty then 0
        else if negative then - (digitsValue 0 ds : Int) else (digitsValue 0 ds : Int)
      else 0
  | [] => 0

/-- Longest prefix of the text that is a `StrDecimalLiteral`, after leading
white space. -/
def scanFloat (text : List Char) : Scanned :=
  let (negative, body) := takeSign (trimStart text)
  if "Infinity".toList.isPrefixOf body then .infinity negative
  else
    let intDigits := body.takeWhile Char.isDigit
    let afterInt := body.dropWhile Char.isDigit
    match afterInt with
    | '.' :: afterDot =>
        let fracDigits := afterDot.takeWhile Char.isDigit
        let afterFrac := afterDot.dropWhile Char.isDigit
        if intDigits.isEmpty && fracDigits.isEmpty then .none
        else
          .decimal
            { negative := negative
              mantissa := digitsValue 0 (intDigits ++ fracDigits)
              exponent := scanExponent afterFrac - (fracDigits.length : Int) }
    | _ =>
        if intDigits.isEmpty then .none
        else
          .decimal
            { negative := negative
              mantissa := digitsValue 0 intDigits
              exponent := scanExponent afterInt }

/-- The value `⌊log₂ n⌋` for `n ≥ 1` (and `0` for `n = 0`), by halving at most
`fuel` times. -/
def log2Fuel : Nat → Nat → Nat
  | 0, _ => 0
  | fuel + 1, n => if n < 2 then 0 else log2Fuel fuel (n / 2) + 1

/-- The value `⌊log₂ n⌋` for `n ≥ 1`. -/
def floorLog2 (n : Nat) : Nat := log2Fuel n n

/-- The value `⌊log₂ (n / d)⌋` for positive `n` and `d`: the difference of the
two logarithms, or one less. -/
def floorLog2Ratio (n d : Nat) : Int :=
  let guess : Int := (floorLog2 n : Int) - (floorLog2 d : Int)
  let reached : Bool :=
    if 0 ≤ guess then decide (d * 2 ^ guess.toNat ≤ n)
    else decide (d ≤ n * 2 ^ (-guess).toNat)
  if reached then guess else guess - 1

/-- The integer nearest to `n / d`, a tie going to the even one. -/
def roundHalfEven (n d : Nat) : Nat :=
  let q := n / d
  let r := n % d
  if 2 * r < d then q
  else if d < 2 * r then q + 1
  else if q % 2 = 0 then q else q + 1

/-- The magnitude of a binary64 value: zero, `significand × 2 ^ exponent`, or
infinite. -/
inductive Magnitude where
  | zero : Magnitude
  | finite (significand : Nat) (exponent : Int) : Magnitude
  | infinite : Magnitude
  deriving DecidableEq

/-- The binary64 magnitude nearest to the fraction `n / d` (`d > 0`), ties to
even: 53 significant bits, the exponent of the leading bit between -1022
(below which the spacing stays that of the subnormals) and 1023 (above which the
value is infinite). -/
def roundToBinary64 (n d : Nat) : Magnitude :=
  if n = 0 then .zero
  else
    let e := max (floorLog2Ratio n d) (-1022)
    if 1023 < e then .infinite
    else
      let k := e - 52
      let significand :=
        if 0 ≤ k then roundHalfEven n (d * 2 ^ k.toNat)
        else roundHalfEven (n * 2 ^ (-k).toNat) d
      if significand = 0 then .zero
      else if e = 1023 ∧ significand = 2 ^ 53 then .infinite
      else .finite significand k

/-- The magnitude of a decimal literal as a fraction of naturals. -/
def Decimal.fraction (d : Decimal) : Nat × Nat :=
  if 0 ≤ d.exponent then (d.mantissa * 10 ^ d.exponent.toNat, 1)
  else (d.mantissa, 10 ^ (-d.exponent).toNat)

/-- The binary64 magnitude of a decimal literal. -/
def Decimal.magnitude (d : Decimal) : Magnitude :=
  roundToBinary64 d.fraction.1 d.fraction.2

/-- The number with the given sign and magnitude. -/
def signedNum (negative : Bool) : Magnitude → JSNum
  | .zero => if negative then .negZero else .fin 0
  | .infinite => .inf negative
  | .finite significand exponent =>
      .fin ((if negative then -1 else 1) * (significand : ℚ) * (2 : ℚ) ^ exponent)

/-- The Number value of a decimal literal. -/
def Decimal.toNum (d : Decimal) : JSNum := signedNum d.negative d.magnitude

/-- The number denoted by a scan result. -/
def Scanned.toNum : Scanned → JSNum
  | .none => .nan
  | .infinity negative => .inf negative
  | .decimal d => d.toNum

/-- The function `parseFloat` on a string. -/
def parseFloatText (s : String) : JSNum := (scanFloat s.toList).toNum

/-- The function `parseFloat(v)`: the argument is first converted to a string.
`undefined`, `null` and booleans print as words that start no numeric literal; a
number prints as a literal that reads back as the same number; an array prints
as its elements joined by commas. -/
def parseFloat : JSVal → JSNum
  | .undefined => parseFloatText "undefined"
  | .null => parseFloatText "null"
  | .bool b => parseFloatText (if b then "true" else "false")
  | .num n => n
  | .str s => parseFloatText s
  | .arr xs => parseFloatText (",".intercalate xs)

/-! ## Props received from the server -/

/-- The dashboard statistics object (`GET /api/dashboard/stats`). -/
structure DashboardStats where
  current_month_hours : ℚ
  target_hours : ℚ
  progress_percentage : ℚ
  total_hours : ℚ
  active_goals : Nat
  total_milestones : Nat
  deriving DecidableEq

/-- A milestone as listed by `GET /api/milestones/current-month`. -/
structure Milestone where
  id : String
  goal_id : Option String
  what_learned : String
  learning_source : String
  hours_invested : ℚ
  can_teach_others : Bool
  project_certificate_link : Option String
  created_at : String
  deriving DecidableEq

/-! ## `DashboardView` -/

/-- The line under the progress bar. -/
inductive StatusLine where
  | remaining (hours : ℚ) : StatusLine
  | targetAchieved : StatusLine
  deriving DecidableEq

/-- The "This Month" card: the hours headline, the value handed to `Progress`,
and the status line. -/
structure MonthCard where
  hours : ℚ
  progressValue : ℚ
  status : StatusLine
  deriving DecidableEq

/-- One entry of the "Recent Milestones" card. -/
structure RecentRow where
  key : String
  what_learned : String
  hours_invested : ℚ
  learning_source : String
  deriving DecidableEq

/-- Content of the "Recent Milestones" card. -/
inductive RecentCard where
  | rows (entries : List RecentRow) : RecentCard
  | placeholder : RecentCard
  deriving DecidableEq

/-- The entries a card shows (none for the placeholder). -/
def RecentCard.shown : RecentCard → List RecentRow
  | .rows entries => entries
  | .placeholder => []

/-- The rendered dashboard: the four overview cards and the recent list (the
"Quick Actions" card only hosts the two create dialogs, modelled below). -/
structure Dashboard where
  month : MonthCard
  totalHours : ℚ
  activeGoals : Nat
  totalMilestones : Nat
  recent : RecentCard
  deriving DecidableEq

/-- What `DashboardView` returns. -/
inductive DashboardRender where
  | loading : DashboardRender
  | dashboard (d : Dashboard) : DashboardRender
  deriving DecidableEq

/-- The element rendered for one milestone of the recent list. -/
def recentRow (milestone : Milestone) : RecentRow :=
  { key := milestone.id
    what_learned := milestone.what_learned
    hours_invested := milestone.hours_invested
    learning_source := milestone.learning_source }

/-- The card `Recent Milestones`: `milestones.slice(0, 3).map(..)` when
`milestones.length > 0`, the placeholder paragraph otherwise. -/
def recentMilestonesCard (milestones : List Milestone) : RecentCard :=
  if milestones.length > 0 then .rows ((milestones.take 3).map recentRow)
  else .placeholder

/-- The card `This Month`. -/
def monthCard (stats : DashboardStats) : MonthCard :=
  { hours := stats.current_month_hours
    progressValue := stats.progress_percentage
    status :=
      if stats.target_hours - stats.current_month_hours > 0 then
        .remaining (stats.target_hours - stats.current_month_hours)
      else .targetAchieved }

/-- The component `DashboardView`; `stats = none` stands for the `null` held
before the statistics are loaded. -/
def DashboardView (stats : Option DashboardStats) (milestones : List Milestone) :
    DashboardRender :=
  match stats with
  | none => .loading
  | some stats =>
      .dashboard
        { month := monthCard stats
          totalHours := stats.total_hours
          activeGoals := stats.active_goals
          totalMilestones := stats.total_milestones
          recent := recentMilestonesCard milestones }

/-- The rows of recent milestones on the rendered page (none while loading, and
none when the card shows its placeholder). -/
def DashboardRender.recentRows : DashboardRender → List RecentRow
  | .loading => []
  | .dashboard d => d.recent.shown

/-- The rendered page shows the "No milestones yet" placeholder. -/
def DashboardRender.showsPlaceholder : DashboardRender → Bool
  | .loading => false
  | .dashboard d => decide (d.recent = .placeholder)

/-- The value handed to `Progress` on the rendered page (none while loading). -/
def DashboardRender.progressValue : DashboardRender → Option ℚ
  | .loading => none
  | .dashboard d => some d.month.progressValue

/-! ## Requests, outcomes and effects -/

/-- A call `fetch(url, options)`; `body = some o` stands for the option
`body: JSON.stringify(o)`, kept as the object that is serialised. -/
structure Request where
  method : String
  url : String
  headers : List (String × String)
  body : Option Obj
  deriving DecidableEq

/-- Value of the header `name` of a request, if it is set. -/
def Request.header (r : Request) (name : String) : Option String :=
  r.headers.lookup name

/-- A response as far as the client looks at it: the `ok` flag and the value
`response.json()` resolves to (`none` when decoding rejects). -/
structure Response (α : Type) where
  ok : Bool
  json : Option α

/-- How an awaited `fetch` settles: with a response, or rejected by a network
error. -/
inductive FetchOutcome (α : Type) where
  | resolved (response : Response α) : FetchOutcome α
  | rejected : FetchOutcome α

/-- The request settled with a response whose `ok` flag is set. -/
def FetchOutcome.isOk {α : Type} : FetchOutcome α → Bool
  | .resolved response => response.ok
  | .rejected => false

/-- Observable actions of the client, in program order. -/
inductive Effect where
  | fetch (request : Request) : Effect
  | fetchDashboardData : Effect
  | consoleError (message : String) : Effect
  | alert (message : String) : Effect
  deriving DecidableEq

/-- How the promise of an `async` function settles. -/
inductive Settled (α : Type) where
  | fulfilled (value : α) : Settled α
  | rejected : Settled α
  deriving DecidableEq

/-- How a `try` block ends: it runs off its end, executes `return v`, or
throws. -/
inductive Completion (α : Type) where
  | normal : Completion α
  | returned (value : α) : Completion α
  | thrown : Completion α
  deriving DecidableEq

/-- The template literal with a token interpolated: `null` prints as the word
`null`. -/
def tokenText : Option String → String
  | none => "null"
  | some t => t

/-- The header object `{ Authorization: 'Bearer ' + token }`. -/
def authHeader (token : Option String) : String × String :=
  ("Authorization", "Bearer " ++ tokenText token)

/-! ## `App`: requests of the data functions -/

/-- The request of `fetchUserProfile`. -/
def fetchUserProfileRequest (apiUrl : String) (token : Option String) : Request :=
  { method := "GET", url := apiUrl ++ "/api/profile", headers := [authHeader token],
    body := none }

/-- The four requests started by `fetchDashboardData`, in the order of the array
given to `Promise.all`: statistics, goals, milestones of the month, resources. -/
def fetchDashboardDataRequests (apiUrl : String) (token : Option String) :
    List Request :=
  [ { method := "GET", url := apiUrl ++ "/api/dashboard/stats",
      headers := [authHeader token], body := none },
    { method := "GET", url := apiUrl ++ "/api/goals",
      headers := [authHeader token], body := none },
    { method := "GET", url := apiUrl ++ "/api/milestones/current-month",
      headers := [authHeader token], body := none },
    { method := "GET", url := apiUrl ++ "/api/resources", headers := [], body := none } ]

/-- The request of `createGoal`. -/
def createGoalRequest (apiUrl : String) (token : Option String) (goalData : Obj) :
    Request :=
  { method := "POST", url := apiUrl ++ "/api/goals",
    headers := [("Content-Type", "application/json"), authHeader token],
    body := some goalData }

/-- The request of `createMilestone`. -/
def createMilestoneRequest (apiUrl : String) (token : Option String)
    (milestoneData : Obj) : Request :=
  { method := "POST", url := apiUrl ++ "/api/milestones",
    headers := [("Content-Type", "application/json"), authHeader token],
    body := some milestoneData }

/-- The `try` block of `createGoal`: await the request; on an OK response start
`fetchDashboardData()` and `return true`. -/
def createGoalTry {α : Type} (apiUrl : String) (token : Option String)
    (goalData : Obj) (outcome : FetchOutcome α) : Completion Bool × List Effect :=
  match outcome with
  | .rejected => (.thrown, [.fetch (createGoalRequest apiUrl token goalData)])
  | .resolved response =>
      if response.ok then
        (.returned true,
          [.fetch (createGoalRequest apiUrl token goalData), .fetchDashboardData])
      else (.normal, [.fetch (createGoalRequest apiUrl token goalData)])

/-- The function `createGoal`: the `try` block, its `catch` (which logs), and the
final `return false`. -/
def createGoal {α : Type} (apiUrl : String) (token : Option String) (goalData : Obj)
    (outcome : FetchOutcome α) : Settled Bool × List Effect :=
  match createGoalTry apiUrl token goalData outcome with
  | (.returned value, effects) => (.fulfilled value, effects)
  | (.normal, effects) => (.fulfilled false, effects)
  | (.thrown, effects) =>
      (.fulfilled false, effects ++ [.consoleError "Error creating goal:"])

/-- The `try` block of `createMilestone`. -/
def createMilestoneTry {α : Type} (apiUrl : String) (token : Option String)
    (milestoneData : Obj) (outcome : FetchOutcome α) :
    Completion Bool × List Effect :=
  match outcome with
  | .rejected => (.thrown, [.fetch (createMilestoneRequest apiUrl token milestoneData)])
  | .resolved response =>
      if response.ok then
        (.returned true,
          [.fetch (createMilestoneRequest apiUrl token milestoneData),
            .fetchDashboardData])
      else (.normal, [.fetch (createMilestoneRequest apiUrl token milestoneData)])

/-- The function `createMilestone`. -/
def createMilestone {α : Type} (apiUrl : String) (token : Option String)
    (milestoneData : Obj) (outcome : FetchOutcome α) : Settled Bool × List Effect :=
  match createMilestoneTry apiUrl token milestoneData outcome with
  | (.returned value, effects) => (.fulfilled value, effects)
  | (.normal, effects) => (.fulfilled false, effects)
  | (.thrown, effects) =>
      (.fulfilled false, effects ++ [.consoleError "Error creating milestone:"])

/-- The requests among a list of effects, in order. -/
def requestsOf (effects : List Effect) : List Request :=
  effects.filterMap fun e =>
    match e with
    | .fetch request => some request
    | _ => none

/-! ## `AuthScreen` -/

/-- The handler `handleInputChange(field, value)` of `AuthScreen`:
`setFormData(prev => ({...prev, [field]: value}))`. -/
def AuthScreen.handleInputChange (formData : Obj) (field : String) (value : JSVal) :
    Obj :=
  Obj.set formData field value

/-- The value computed by the `onChange` of the two comma separated inputs:
`e.target.value.split(',').map(s => s.trim())`. -/
def splitAndTrim (text : String) : List String := (jsSplitComma text).map jsTrim

/-- The `onChange` of the input `existing_skills`. -/
def AuthScreen.existingSkillsChanged (formData : Obj) (text : String) : Obj :=
  AuthScreen.handleInputChange formData "existing_skills" (.arr (splitAndTrim text))

/-- The `onChange` of the input `learning_interests`. -/
def AuthScreen.learningInterestsChanged (formData : Obj) (text : String) : Obj :=
  AuthScreen.handleInputChange formData "learning_interests" (.arr (splitAndTrim text))

/-! ## The create dialogs -/

/-- State of a create dialog: the three `useState` cells (`isOpen` is the cell
named `open` in the source). -/
structure DialogState where
  isOpen : Bool
  formData : Obj
  loading : Bool
  deriving DecidableEq

/-- The state a dialog is mounted with: closed, `formData = {}`, not loading. -/
def DialogState.initial : DialogState :=
  { isOpen := false, formData := [], loading := false }

/-- The handler `handleSubmit` of `CreateGoalDialog`, given the `onCreateGoal`
prop: the form object itself is the payload. -/
def CreateGoalDialog.handleSubmit (onCreateGoal : Obj → Settled Bool × List Effect)
    (st : DialogState) : DialogState × Settled Unit × List Effect :=
  let st1 := { st with loading := true }
  match onCreateGoal st.formData with
  | (.fulfilled success, effects) =>
      let st2 := if success then { st1 with isOpen := false, formData := [] } else st1
      ({ st2 with loading := false }, .fulfilled (), effects)
  | (.rejected, effects) => (st1, .rejected, effects)

/-- The argument `handleSubmit` of `CreateMilestoneDialog` builds for
`onCreateMilestone`: `{...formData, hours_invested: parseFloat(formData.hours_invested)}`. -/
def milestonePayload (formData : Obj) : Obj :=
  Obj.set formData "hours_invested"
    (.num (parseFloat (Obj.get formData "hours_invested")))

/-- The handler `handleSubmit` of `CreateMilestoneDialog`, given the
`onCreateMilestone` prop. -/
def CreateMilestoneDialog.handleSubmit
    (onCreateMilestone : Obj → Settled Bool × List Effect) (st : DialogState) :
    DialogState × Settled Unit × List Effect :=
  let st1 := { st with loading := true }
  match onCreateMilestone (milestonePayload st.formData) with
  | (.fulfilled success, effects) =>
      let st2 := if success then { st1 with isOpen := false, formData := [] } else st1
      ({ st2 with loading := false }, .fulfilled (), effects)
  | (.rejected, effects) => (st1, .rejected, effects)

/-- What can happen to a mounted `CreateGoalDialog`: an `onChange` of one of its
three inputs, the dialog being opened or closed, or a submit whose request
settles with the given outcome. -/
inductive GoalDialogEvent where
  | titleChanged (value : String) : GoalDialogEvent
  | descriptionChanged (value : String) : GoalDialogEvent
  | targetCompletionChanged (value : String) : GoalDialogEvent
  | openChanged (value : Bool) : GoalDialogEvent
  | submitted (outcome : FetchOutcome Unit) : GoalDialogEvent

/-- What can happen to a mounted `CreateMilestoneDialog`. -/
inductive MilestoneDialogEvent where
  | goalSelected (value : JSVal) : MilestoneDialogEvent
  | whatLearnedChanged (value : String) : MilestoneDialogEvent
  | learningSourceChanged (value : String) : MilestoneDialogEvent
  | canTeachOthersChanged (checked : Bool) : MilestoneDialogEvent
  | hoursInvestedChanged (value : String) : MilestoneDialogEvent
  | certificateLinkChanged (value : String) : MilestoneDialogEvent
  | openChanged (value : Bool) : MilestoneDialogEvent
  | submitted (outcome : FetchOutcome Unit) : MilestoneDialogEvent

/-- One event of `CreateGoalDialog`, wired to `createGoal` as in `App`: the new
state and the effects performed. -/
def CreateGoalDialog.step (apiUrl : String) (token : Option String)
    (st : DialogState) : GoalDialogEvent → DialogState × List Effect
  | .titleChanged value =>
      ({ st with formData := Obj.set st.formData "title" (.str value) }, [])
  | .descriptionChanged value =>
      ({ st with formData := Obj.set st.formData "description" (.str value) }, [])
  | .targetCompletionChanged value =>
      ({ st with formData := Obj.set st.formData "target_completion" (.str value) }, [])
  | .openChanged value => ({ st with isOpen := value }, [])
  | .submitted outcome =>
      let r := CreateGoalDialog.handleSubmit
        (fun goalData => createGoal apiUrl token goalData outcome) st
      (r.1, r.2.2)

/-- One event of `CreateMilestoneDialog`, wired to `createMilestone` as in `App`. -/
def CreateMilestoneDialog.step (apiUrl : String) (token : Option String)
    (st : DialogState) : MilestoneDialogEvent → DialogState × List Effect
  | .goalSelected value =>
      ({ st with formData := Obj.set st.formData "goal_id" value }, [])
  | .whatLearnedChanged value =>
      ({ st with formData := Obj.set st.formData "what_learned" (.str value) }, [])
  | .learningSourceChanged value =>
      ({ st with formData := Obj.set st.formData "learning_source" (.str value) }, [])
  | .canTeachOthersChanged checked =>
      ({ st with formData := Obj.set st.formData "can_teach_others" (.bool checked) }, [])
  | .hoursInvestedChanged value =>
      ({ st with formData := Obj.set st.formData "hours_invested" (.str value) }, [])
  | .certificateLinkChanged value =>
      ({ st with
          formData := Obj.set st.formData "project_certificate_link" (.str value) }, [])
  | .openChanged value => ({ st with isOpen := value }, [])
  | .submitted outcome =>
      let r := CreateMilestoneDialog.handleSubmit
        (fun milestoneData => createMilestone apiUrl token milestoneData outcome) st
      (r.1, r.2.2)

/-- Run a sequence of events of `CreateGoalDialog` from a state, collecting the
effects. -/
def CreateGoalDialog.run (apiUrl : String) (token : Option String) :
    DialogState → List GoalDialogEvent → DialogState × List Effect
  | st, [] => (st, [])
  | st, e :: es =>
      let r := CreateGoalDialog.step apiUrl token st e
      let rest := CreateGoalDialog.run apiUrl token r.1 es
      (rest.1, r.2 ++ rest.2)

/-- Run a sequence of events of `CreateMilestoneDialog` from a state, collecting
the effects. -/
def CreateMilestoneDialog.run (apiUrl : String) (token : Option String) :
    DialogState → List MilestoneDialogEvent → DialogState × List Effect
  | st, [] => (st, [])
  | st, e :: es =>
      let r := CreateMilestoneDialog.step apiUrl token st e
      let rest := CreateMilestoneDialog.run apiUrl token r.1 es
      (rest.1, r.2 ++ rest.2)

/-- The keys a goal payload may carry. -/
def goalPayloadKeys : List String := ["title", "description", "target_completion"]

/-- The keys a milestone payload may carry. -/
def milestonePayloadKeys : List String :=
  ["goal_id", "what_learned", "learning_source", "can_teach_others", "hours_invested",
    "project_certificate_link"]

/-- The fields the server assigns. -/
def serverAssignedKeys : List String := ["created_at", "id", "status"]

/-- A filled milestone form whose hours text is `-1`. -/
def negativeHoursForm : Obj :=
  [("what_learned", .str "Ownership"), ("learning_source", .str "Rustlings"),
    ("hours_invested", .str "-1")]

/-- The events that fill that form in an opened dialog and submit it, the
request being answered with an OK response. -/
def negativeHoursEvents : List MilestoneDialogEvent :=
  [.openChanged true, .whatLearnedChanged "Ownership", .learningSourceChanged "Rustlings",
    .hoursInvestedChanged "-1", .submitted (.resolved { ok := true, json := some () })]

/-- The requests the client issues for a list of effects: a `fetch` is one
request, a started `fetchDashboardData()` is the four requests it starts (with
the same token), any other effect none. -/
def issuedRequests (apiUrl : String) (token : Option String) (effects : List Effect) :
    List Request :=
  effects.flatMap fun e =>
    match e with
    | .fetch request => [request]
    | .fetchDashboardData => fetchDashboardDataRequests apiUrl token
    | _ => []

/-! ## `App`: state and data functions -/

/-- A goal as listed by `GET /api/goals`. -/
structure Goal where
  id : String
  title : String
  description : String
  target_completion : String
  status : String
  deriving DecidableEq

/-- A resource as listed by `GET /api/resources`. -/
structure Resource where
  id : String
  name : String
  usage_count : Nat
  total_hours : ℚ
  skills_taught : List String
  deriving DecidableEq

/-- The body of `GET /api/milestones/current-month`; `milestones = none` stands
for a missing (falsy) property. -/
structure MonthData where
  milestones : Option (List Milestone)
  deriving DecidableEq

/-- The `useState` cells of `App`, and the entry `token` of `localStorage`. -/
structure AppState where
  user : Option Obj
  token : Option String
  currentView : String
  loading : Bool
  dashboardStats : Option DashboardStats
  goals : List Goal
  milestones : List Milestone
  resources : List Resource
  storedToken : Option String
  deriving DecidableEq

/-- The function `fetchUserProfile`: on an OK response store the decoded user
and show the dashboard; on any other response drop the token; a rejected request
or a body that fails to decode is caught and logged. -/
def fetchUserProfile (apiUrl : String) (st : AppState) (outcome : FetchOutcome Obj) :
    AppState × List Effect :=
  match outcome with
  | .rejected =>
      (st, [.fetch (fetchUserProfileRequest apiUrl st.token),
        .consoleError "Error fetching profile:"])
  | .resolved response =>
      if response.ok then
        match response.json with
        | some userData =>
            ({ st with user := some userData, currentView := "dashboard" },
              [.fetch (fetchUserProfileRequest apiUrl st.token)])
        | none =>
            (st, [.fetch (fetchUserProfileRequest apiUrl st.token),
              .consoleError "Error fetching profile:"])
      else
        ({ st with storedToken := none, token := none },
          [.fetch (fetchUserProfileRequest apiUrl st.token)])

/-- One of the four updates at the end of `fetchDashboardData`:
`if (res.ok) set(await res.json())`. The result is `none` when decoding rejects,
which aborts the remaining updates. -/
def applyIfOk {α : Type} (outcome : FetchOutcome α) (set : α → AppState → AppState)
    (st : AppState) : Option AppState :=
  match outcome with
  | .rejected => some st
  | .resolved response =>
      if response.ok then
        match response.json with
        | some value => some (set value st)
        | none => none
      else some st

/-- The function `fetchDashboardData`: the four requests are started together;
if any of them is rejected nothing is stored; otherwise each OK response is
decoded and stored in turn, a decoding failure ending the sequence. Failures are
caught and logged. -/
def fetchDashboardData (apiUrl : String) (st : AppState)
    (statsRes : FetchOutcome DashboardStats) (goalsRes : FetchOutcome (List Goal))
    (milestonesRes : FetchOutcome MonthData) (resourcesRes : FetchOutcome (List Resource)) :
    AppState × List Effect :=
  let started := (fetchDashboardDataRequests apiUrl st.token).map Effect.fetch
  let failed := (st, started ++ [.consoleError "Error fetching dashboard data:"])
  match statsRes, goalsRes, milestonesRes, resourcesRes with
  | .resolved _, .resolved _, .resolved _, .resolved _ =>
      match applyIfOk statsRes (fun v s => { s with dashboardStats := some v }) st with
      | none => failed
      | some st1 =>
          match applyIfOk goalsRes (fun v s => { s with goals := v }) st1 with
          | none => (st1, started ++ [.consoleError "Error fetching dashboard data:"])
          | some st2 =>
              match applyIfOk milestonesRes
                  (fun v s => { s with milestones := v.milestones.getD [] }) st2 with
              | none => (st2, started ++ [.consoleError "Error fetching dashboard data:"])
              | some st3 =>
                  match applyIfOk resourcesRes (fun v s => { s with resources := v }) st3 with
                  | none =>
                      (st3, started ++ [.consoleError "Error fetching dashboard data:"])
                  | some st4 => (st4, started)
  | _, _, _, _ => failed

/-- An application state after sign-in with the token `t0`, nothing loaded yet. -/
def signedInState : AppState :=
  { user := none, token := some "t0", currentView := "dashboard", loading := false,
    dashboardStats := none, goals := [], milestones := [], resources := [],
    storedToken := some "t0" }

/-! ## `GoalsView` and `ResourcesView` -/

/-- One card of `GoalsView`: title, status badge, description, target date. -/
structure GoalCard where
  key : String
  title : String
  statusBadge : String
  description : String
  target : String
  deriving DecidableEq

/-- The component `GoalsView`: one card per goal, in list order; the badge shows
`goal.status` as received. -/
def GoalsView (goals : List Goal) : List GoalCard :=
  goals.map fun goal =>
    { key := goal.id, title := goal.title, statusBadge := goal.status,
      description := goal.description, target := goal.target_completion }

/-- One card of `ResourcesView`: name, the two badges, and the skill tags. -/
structure ResourceCard where
  key : String
  name : String
  uses : Nat
  totalHours : ℚ
  skills : List String
  deriving DecidableEq

/-- The component `ResourcesView`: one card per resource, in list order. -/
def ResourcesView (resources : List Resource) : List ResourceCard :=
  resources.map fun resource =>
    { key := resource.id, name := resource.name, uses := resource.usage_count,
      totalHours := resource.total_hours, skills := resource.skills_taught }

/-! ## The server-side core, modelled from the specification -/

namespace Core

/-- Modelled from the spec: the error taxonomy of section 7 (the server code is
not part of the client source). -/
inductive CoreError where
  | validationError (field : String) : CoreError
  | notFoundError : CoreError
  | authorizationError : CoreError
  | invalidTransitionError : CoreError
  | persistenceError : CoreError
  deriving DecidableEq

/-- Modelled from the spec: the status of a goal (section 3), missing from the
client source, which only displays it. -/
inductive GoalStatus where
  | active : GoalStatus
  | completed : GoalStatus
  | abandoned : GoalStatus
  deriving DecidableEq

/-- Modelled from the spec: a calendar date as year, month, day. -/
structure Date where
  year : Nat
  month : Nat
  day : Nat
  deriving DecidableEq

/-- Modelled from the spec: a date is well formed when its month is 1 to 12 and
its day is 1 to 31 (section 4.1 rejects malformed dates). -/
def Date.wellFormed (d : Date) : Bool :=
  decide (1 ≤ d.month) && decide (d.month ≤ 12) && decide (1 ≤ d.day) &&
    decide (d.day ≤ 31)

/-- Modelled from the spec: the Goal entity of section 3. -/
structure Goal where
  id : Nat
  userId : String
  title : String
  description : String
  targetCompletion : Date
  status : GoalStatus
  createdAt : Nat
  deriving DecidableEq

/-- Modelled from the spec: the Milestone entity of section 3. -/
structure Milestone where
  id : Nat
  userId : String
  goalId : Option Nat
  whatLearned : String
  learningSource : String
  hoursInvested : ℚ
  canTeachOthers : Bool
  certificateLink : Option String
  createdAt : Nat
  deriving DecidableEq

/-- Modelled from the spec: the Resource entity of section 3, keyed by its
name. -/
structure Resource where
  name : String
  usage_count : Nat
  total_hours : ℚ
  skills_taught : List String
  deriving DecidableEq

/-- Modelled from the spec: what the persistence collaborator holds; `nextId`
is the source of unique ids. -/
structure Store where
  goals : List Goal
  milestones : List Milestone
  resources : List Resource
  nextId : Nat
  deriving DecidableEq

/-- Modelled from the spec: `progress_percentage` of section 3,
`min(100, round(current_month_hours / target_hours × 100))` when
`target_hours > 0`, else `0`. -/
def progressPercentage (currentMonthHours targetHours : ℚ) : ℚ :=
  if targetHours > 0 then
    ((min 100 (round (currentMonthHours / targetHours * 100)) : ℤ) : ℚ)
  else 0

/-- Modelled from the spec: the allowed transitions of section 4.4,
`active → completed` and `active → abandoned`. -/
def allowedTransition : GoalStatus → GoalStatus → Bool
  | .active, .completed => true
  | .active, .abandoned => true
  | _, _ => false

/-- Modelled from the spec: `createGoal(userId, title, description,
targetCompletionDate)` of section 4.4. Validates the inputs (non-empty title and
description, a present and well-formed target date), assigns a unique id and the
creation timestamp, sets `status = active`, persists and returns the goal. -/
def createGoal (store : Store) (now : Nat) (userId title description : String)
    (targetCompletionDate : Option Date) : Except CoreError (Goal × Store) :=
  if title = "" then .error (.validationError "title")
  else if description = "" then .error (.validationError "description")
  else
    match targetCompletionDate with
    | none => .error (.validationError "target_completion")
    | some date =>
        if date.wellFormed then
          let goal : Goal :=
            { id := store.nextId, userId := userId, title := title,
              description := description, targetCompletion := date, status := .active,
              createdAt := now }
          .ok (goal, { store with goals := store.goals ++ [goal],
                                  nextId := store.nextId + 1 })
        else .error (.validationError "target_completion")

/-- Modelled from the spec: `transitionGoalStatus(goalId, newStatus)` of section
4.4. An unknown goal is a `NotFoundError`; a transition other than the two
allowed ones is an `InvalidTransitionError`; otherwise the goal's status is
replaced. -/
def transitionGoalStatus (store : Store) (goalId : Nat) (newStatus : GoalStatus) :
    Except CoreError Store :=
  match store.goals.find? (fun g => g.id = goalId) with
  | none => .error .notFoundError
  | some goal =>
      if allowedTransition goal.status newStatus then
        .ok { store with
              goals := store.goals.map fun g =>
                if g.id = goalId then { g with status := newStatus } else g }
      else .error .invalidTransitionError

/-- Modelled from the spec: the ledger lookup "find Resource by name" of section
6, by exact (case-sensitive) string equality. -/
def findResource (ledger : List Resource) (resourceName : String) : Option Resource :=
  ledger.find? (fun r => r.name = resourceName)

/-- Modelled from the spec: `recordUsage(resourceName, hoursInvested, skillTags)`
of section 4.2. Looks up or creates the resource with exactly this name,
increments `usage_count` by 1 and `total_hours` by `hoursInvested`, and merges
the tags into `skills_taught` without duplicates. -/
def recordUsage : List Resource → String → ℚ → List String → List Resource
  | [], resourceName, hoursInvested, skillTags =>
      [{ name := resourceName, usage_count := 1, total_hours := hoursInvested,
         skills_taught := skillTags.dedup }]
  | r :: rest, resourceName, hoursInvested, skillTags =>
      if r.name = resourceName then
        { r with usage_count := r.usage_count + 1,
                 total_hours := r.total_hours + hoursInvested,
                 skills_taught := r.skills_taught ∪ skillTags } :: rest
      else r :: recordUsage rest resourceName hoursInvested skillTags

/-- Modelled from the spec: the arguments of `createMilestone` (section 4.4). -/
structure MilestoneInput where
  userId : String
  goalId : Option Nat
  whatLearned : String
  learningSource : String
  hoursInvested : ℚ
  canTeachOthers : Bool
  certificateLink : Option String
  deriving DecidableEq

/-- Modelled from the spec: the input validation of `createMilestone` (sections 3
and 4.1): "what learned" and the learning source are non-empty, hours are not
negative, a supplied link is a well-formed URL (as judged by `isUrl`). The
result names the offending field. -/
def validateMilestone (isUrl : String → Bool) (input : MilestoneInput) : Option String :=
  if input.whatLearned = "" then some "what_learned"
  else if input.learningSource = "" then some "learning_source"
  else if input.hoursInvested < 0 then some "hours_invested"
  else
    match input.certificateLink with
    | some link => if isUrl link then none else some "project_certificate_link"
    | none => none

/-- Modelled from the spec: the goal check of `createMilestone`: a supplied
`goalId` must name an existing goal (else `NotFoundError`) owned by the user
(else `AuthorizationError`). -/
def checkGoal (store : Store) (userId : String) : Option Nat → Option CoreError
  | none => none
  | some goalId =>
      match store.goals.find? (fun g => g.id = goalId) with
      | none => some .notFoundError
      | some goal => if goal.userId = userId then none else some .authorizationError

/-- Modelled from the spec: `createMilestone` of section 4.4. Validates the
inputs, checks the goal reference, assigns a unique id and the server-side
timestamp, persists the milestone, records the usage in the resource ledger (no
skill tags are supplied by this flow) and returns the milestone. -/
def createMilestone (isUrl : String → Bool) (store : Store) (now : Nat)
    (input : MilestoneInput) : Except CoreError (Milestone × Store) :=
  match validateMilestone isUrl input with
  | some field => .error (.validationError field)
  | none =>
      match checkGoal store input.userId input.goalId with
      | some err => .error err
      | none =>
          let milestone : Milestone :=
            { id := store.nextId, userId := input.userId, goalId := input.goalId,
              whatLearned := input.whatLearned, learningSource := input.learningSource,
              hoursInvested := input.hoursInvested,
              canTeachOthers := input.canTeachOthers,
              certificateLink := input.certificateLink, createdAt := now }
          .ok (milestone,
            { store with
              milestones := store.milestones ++ [milestone],
              resources :=
                recordUsage store.resources input.learningSource input.hoursInvested [],
              nextId := store.nextId + 1 })

end Core

/-- Statistics of a month with 30 hours against a target of 20 whose
`progress_percentage` is the uncapped 150. -/
def uncappedStats : DashboardStats :=
  { current_month_hours := 30, target_hours := 20, progress_percentage := 150,
    total_hours := 45, active_goals := 1, total_milestones := 6 }

/-- A filled milestone form with two and a half hours. -/
def filledMilestoneForm : Obj :=
  [("goal_id", .str "g1"), ("what_learned", .str "Ownership"),
    ("learning_source", .str "Rustlings"), ("can_teach_others", .bool true),
    ("hours_invested", .str "2.5")]

/-- Statistics of a month with 30 hours against a target of 20. -/
def overTargetStats : DashboardStats :=
  { current_month_hours := 30, target_hours := 20, progress_percentage := 100,
    total_hours := 45, active_goals := 1, total_milestones := 6 }

/-- An active goal of user `u1`, with id 0. -/
def Core.rustGoal : Core.Goal :=
  { id := 0, userId := "u1", title := "Learn Rust", description := "Systems",
    targetCompletion := { year := 2025, month := 12, day := 31 }, status := .active,
    createdAt := 0 }

/-- A store holding that one goal. -/
def Core.oneGoalStore : Core.Store :=
  { goals := [Core.rustGoal], milestones := [], resources := [], nextId := 1 }

/-- A store whose ledger already has the resource `Rustlings`, used once for
three hours. -/
def Core.rustlingsStore : Core.Store :=
  { goals := [], milestones := [],
    resources :=
      [{ name := "Rustlings", usage_count := 1, total_hours := 3, skills_taught := [] }],
    nextId := 1 }

/-- A second milestone citing `Rustlings`, two hours, no goal. -/
def Core.rustlingsInput : Core.MilestoneInput :=
  { userId := "u1", goalId := none, whatLearned := "Traits",
    learningSource := "Rustlings", hoursInvested := 2, canTeachOthers := false,
    certificateLink := none }

/-- Join segments with `sep` between them (`Array.prototype.join` on character
lists), the inverse of `splitChars`. -/
def joinChars (sep : Char) : List (List Char) → List Char
  | [] => []
  | [seg] => seg
  | seg :: next :: rest => seg ++ sep :: joinChars sep (next :: rest)

/-! ## `App`: authentication, logout and what is rendered -/

/-- The decoded body of a login or register response, as far as `handleAuth`
reads it; `none` stands for a property the body does not have. -/
structure AuthResult where
  access_token : Option String
  user : Option Obj
  detail : Option String
  deriving DecidableEq

/-- The string `localStorage.setItem` stores for a value: a string as is, a
missing value as the word `undefined`. -/
def storedText : Option String → String
  | some t => t
  | none => "undefined"

/-- The request of `handleAuth(endpoint, data)`. -/
def handleAuthRequest (apiUrl endpoint : String) (data : Obj) : Request :=
  { method := "POST", url := apiUrl ++ "/api/" ++ endpoint,
    headers := [("Content-Type", "application/json")], body := some data }

/-- The message of the `alert` for a response that is not OK:
`result.detail || 'Authentication failed'`. -/
def authFailureMessage (result : AuthResult) : String :=
  match result.detail with
  | some detail => if detail = "" then "Authentication failed" else detail
  | none => "Authentication failed"

/-- The `try` block of `handleAuth`, entered with `loading` already set: await
the request and the decoding of its body (either may throw; a body that decodes
to `null` throws at the first property read); on an OK response store the token
in `localStorage` and in state, store the user and show the dashboard; otherwise
alert the failure. -/
def handleAuthTry (apiUrl : String) (st : AppState) (endpoint : String) (data : Obj)
    (outcome : FetchOutcome AuthResult) : Completion Unit × AppState × List Effect :=
  match outcome with
  | .rejected => (.thrown, st, [.fetch (handleAuthRequest apiUrl endpoint data)])
  | .resolved response =>
      match response.json with
      | none => (.thrown, st, [.fetch (handleAuthRequest apiUrl endpoint data)])
      | some result =>
          if response.ok then
            (.normal,
              { st with storedToken := some (storedText result.access_token),
                        token := result.access_token,
                        user := result.user,
                        currentView := "dashboard" },
              [.fetch (handleAuthRequest apiUrl endpoint data)])
          else
            (.normal, st,
              [.fetch (handleAuthRequest apiUrl endpoint data),
                .alert (authFailureMessage result)])

/-- The function `handleAuth`: `setLoading(true)`, the `try` block, its `catch`
(which alerts a network error), and `setLoading(false)`. -/
def handleAuth (apiUrl : String) (st : AppState) (endpoint : String) (data : Obj)
    (outcome : FetchOutcome AuthResult) : AppState × List Effect :=
  match handleAuthTry apiUrl { st with loading := true } endpoint data outcome with
  | (.thrown, st1, effects) =>
      ({ st1 with loading := false }, effects ++ [.alert "Network error. Please try again."])
  | (_, st1, effects) => ({ st1 with loading := false }, effects)

/-- The function `handleLogout`. -/
def handleLogout (st : AppState) : AppState :=
  { st with storedToken := none, token := none, user := none, currentView := "login" }

/-- One card of `MilestonesView`. -/
structure MilestoneCard where
  key : String
  what_learned : String
  hours_invested : ℚ
  canTeachBadge : Bool
  learning_source : String
  link : Option String
  created_at : String
  deriving DecidableEq

/-- The component `MilestonesView`: one card per milestone, in list order; the
link row is shown for a non-empty link only. -/
def MilestonesView (milestones : List Milestone) : List MilestoneCard :=
  milestones.map fun milestone =>
    { key := milestone.id, what_learned := milestone.what_learned,
      hours_invested := milestone.hours_invested,
      canTeachBadge := milestone.can_teach_others,
      learning_source := milestone.learning_source,
      link := milestone.project_certificate_link.filter (fun link => link ≠ ""),
      created_at := milestone.created_at }

/-- The test `!token` of `App`: `null` and the empty string are falsy. -/
def tokenIsFalsy : Option String → Bool
  | none => true
  | some t => decide (t = "")

/-- The authenticated page: the welcome name `user?.full_name` and the four
tabs. -/
structure MainPage where
  welcomeName : JSVal
  dashboard : DashboardRender
  goals : List GoalCard
  milestones : List MilestoneCard
  resources : List ResourceCard
  deriving DecidableEq

/-- What `App` returns. -/
inductive AppRender where
  | authScreen (loading : Bool) : AppRender
  | main (page : MainPage) : AppRender
  deriving DecidableEq

/-- The render is the authenticated page. -/
def AppRender.isMain : AppRender → Bool
  | .main _ => true
  | .authScreen _ => false

/-- The component `App`: the `AuthScreen` when `!token`, else the page with the
header and the four tabs. -/
def App (st : AppState) : AppRender :=
  if tokenIsFalsy st.token then .authScreen st.loading
  else
    .main
      { welcomeName :=
          match st.user with
          | some user => Obj.get user "full_name"
          | none => .undefined
        dashboard := DashboardView st.dashboardStats st.milestones
        goals := GoalsView st.goals
        milestones := MilestonesView st.milestones
        resources := ResourcesView st.resources }

/-- A state with a signed-in user and loaded data. -/
def loadedState : AppState :=
  { user := some [("full_name", .str "Ada")], token := some "t0",
    currentView := "dashboard", loading := false,
    dashboardStats := some overTargetStats,
    goals := [{ id := "g1", title := "Learn Rust", description := "Systems",
                target_completion := "2025-12-31", status := "active" }],
    milestones := [], resources := [], storedToken := some "t0" }

/-- A rejected login: a response that is not OK, with the server's detail. -/
def rejectedLogin : FetchOutcome AuthResult :=
  .resolved
    { ok := false,
      json := some { access_token := none, user := none,
                     detail := some "Incorrect email or password" } }

/-! ## Theorems -/

/-- C1 (as stated, refuted): given the empty list while the statistics are still
`null`, `DashboardView` renders only the loading text, so the placeholder is not
shown although the list is empty. -/
theorem loading_dashboard_shows_no_placeholder :
    DashboardView none [] = .loading ∧
    ¬ ((DashboardView none []).showsPlaceholder = true ↔ ([] : List Milestone) = []) := by
  decide

/-- C1 (amended): for every list of milestones given to `DashboardView` together
with loaded statistics, the "Recent Milestones" card shows exactly the first
`min 3 n` milestones of the list, in list order, each row carrying the id (as
key), `what_learned`, `hours_invested` and `learning_source` of its milestone,
and the placeholder is shown if and only if the list is empty; while the
statistics are `null` the component renders the loading text only, with neither
rows nor placeholder, whatever the list. -/
theorem dashboard_recent_is_truncation (stats : DashboardStats)
    (milestones : List Milestone) :
    (DashboardView (some stats) milestones).recentRows =
      (milestones.take (min 3 milestones.length)).map
        (fun m =>
          ({ key := m.id, what_learned := m.what_learned,
             hours_invested := m.hours_invested,
             learning_source := m.learning_source } : RecentRow)) ∧
    milestones.take (min 3 milestones.length) <+: milestones ∧
    (milestones.take (min 3 milestones.length)).length = min 3 milestones.length ∧
    ((DashboardView (some stats) milestones).showsPlaceholder = true ↔ milestones = []) ∧
    DashboardView none milestones = .loading ∧
    (DashboardView none milestones).recentRows = [] ∧
    (DashboardView none milestones).showsPlaceholder = false := by
  have hmin : milestones.take (min 3 milestones.length) = milestones.take 3 := by
    rcases Nat.le_total 3 milestones.length with h | h
    · rw [Nat.min_eq_left h]
    · rw [Nat.min_eq_right h, List.take_length, List.take_of_length_le h]
  refine ⟨?_, List.take_prefix _ _, ?_, ?_, rfl, rfl, rfl⟩
  · rw [hmin]
    cases milestones with
    | nil => rfl
    | cons m ms =>
        have hpos : (m :: ms).length > 0 := Nat.succ_pos _
        simp only [DashboardView, DashboardRender.recentRows, recentMilestonesCard,
          if_pos hpos, RecentCard.shown]
        rfl
  · rw [List.length_take, Nat.min_assoc, Nat.min_self]
  · cases milestones with
    | nil => simp [DashboardView, DashboardRender.showsPlaceholder, recentMilestonesCard]
    | cons m ms =>
        simp [DashboardView, DashboardRender.showsPlaceholder, recentMilestonesCard]

/-! ### Objects -/

theorem Obj.mem_keys_set (o : Obj) (k : String) (v : JSVal) (k' : String) :
    k' ∈ Obj.keys (Obj.set o k v) ↔ k' ∈ Obj.keys o ∨ k' = k := by
  induction o with
  | nil => simp [Obj.set, Obj.keys]
  | cons kv rest ih =>
      obtain ⟨k0, v0⟩ := kv
      by_cases h : k0 = k
      · subst h
        simp only [Obj.set, if_true, Obj.keys, List.map_cons, List.mem_cons]
        tauto
      · have ih' : k' ∈ List.map Prod.fst (Obj.set rest k v) ↔
            k' ∈ List.map Prod.fst rest ∨ k' = k := ih
        simp only [Obj.set, h, if_false, Obj.keys, List.map_cons, List.mem_cons, ih']
        tauto

theorem Obj.get_set_same (o : Obj) (k : String) (v : JSVal) :
    Obj.get (Obj.set o k v) k = v := by
  induction o with
  | nil => simp [Obj.set, Obj.get]
  | cons kv rest ih =>
      obtain ⟨k0, v0⟩ := kv
      by_cases h : k0 = k
      · simp [Obj.set, Obj.get, h]
      · simp [Obj.set, Obj.get, h, ih]

theorem Obj.get_set_other (o : Obj) (k : String) (v : JSVal) (k' : String)
    (hk : k' ≠ k) : Obj.get (Obj.set o k v) k' = Obj.get o k' := by
  induction o with
  | nil => simp [Obj.set, Obj.get, Ne.symm hk]
  | cons kv rest ih =>
      obtain ⟨k0, v0⟩ := kv
      by_cases h : k0 = k
      · subst h
        simp [Obj.set, Obj.get, Ne.symm hk]
      · by_cases h' : k0 = k'
        · subst h'
          simp [Obj.set, Obj.get, h]
        · simp [Obj.set, Obj.get, h, h', ih]

theorem Obj.get_of_not_mem (o : Obj) (k : String) (h : k ∉ Obj.keys o) :
    Obj.get o k = .undefined := by
  induction o with
  | nil => rfl
  | cons kv rest ih =>
      obtain ⟨k0, v0⟩ := kv
      have hne : ¬ k0 = k := fun e => h (by simp [Obj.keys, e])
      have hrest : k ∉ Obj.keys rest := fun hm => h (by
        simp only [Obj.keys, List.map_cons, List.mem_cons]
        exact Or.inr hm)
      simp only [Obj.get, if_neg hne]
      exact ih hrest

/-! ### `createGoal` and `createMilestone` -/

theorem createGoal_eq {α : Type} (apiUrl : String) (token : Option String)
    (goalData : Obj) (outcome : FetchOutcome α) :
    createGoal apiUrl token goalData outcome =
      (.fulfilled outcome.isOk,
        .fetch (createGoalRequest apiUrl token goalData) ::
          (if outcome.isOk then [.fetchDashboardData]
           else
            match outcome with
            | .rejected => [.consoleError "Error creating goal:"]
            | .resolved _ => [])) := by
  cases outcome with
  | rejected => simp [createGoal, createGoalTry, FetchOutcome.isOk]
  | resolved response =>
      cases hok : response.ok <;> simp [createGoal, createGoalTry, FetchOutcome.isOk, hok]

theorem createMilestone_eq {α : Type} (apiUrl : String) (token : Option String)
    (milestoneData : Obj) (outcome : FetchOutcome α) :
    createMilestone apiUrl token milestoneData outcome =
      (.fulfilled outcome.isOk,
        .fetch (createMilestoneRequest apiUrl token milestoneData) ::
          (if outcome.isOk then [.fetchDashboardData]
           else
            match outcome with
            | .rejected => [.consoleError "Error creating milestone:"]
            | .resolved _ => [])) := by
  cases outcome with
  | rejected => simp [createMilestone, createMilestoneTry, FetchOutcome.isOk]
  | resolved response =>
      cases hok : response.ok <;>
        simp [createMilestone, createMilestoneTry, FetchOutcome.isOk, hok]

theorem requestsOf_createGoal {α : Type} (apiUrl : String) (token : Option String)
    (goalData : Obj) (outcome : FetchOutcome α) :
    requestsOf (createGoal apiUrl token goalData outcome).2 =
      [createGoalRequest apiUrl token goalData] := by
  rw [createGoal_eq]
  cases outcome with
  | rejected => simp [requestsOf, FetchOutcome.isOk]
  | resolved response => cases hok : response.ok <;> simp [requestsOf, FetchOutcome.isOk, hok]

theorem requestsOf_createMilestone {α : Type} (apiUrl : String) (token : Option String)
    (milestoneData : Obj) (outcome : FetchOutcome α) :
    requestsOf (createMilestone apiUrl token milestoneData outcome).2 =
      [createMilestoneRequest apiUrl token milestoneData] := by
  rw [createMilestone_eq]
  cases outcome with
  | rejected => simp [requestsOf, FetchOutcome.isOk]
  | resolved response => cases hok : response.ok <;> simp [requestsOf, FetchOutcome.isOk, hok]

/-- C4: `createGoal` and `createMilestone` always fulfil (no exception escapes),
with `true` exactly when the request settled with an OK response and `false`
when the response is not OK or the request was rejected; `fetchDashboardData` is
started exactly once in the success case and not at all otherwise. -/
theorem create_reports_exactly_the_response {α : Type} (apiUrl : String)
    (token : Option String) (data : Obj) (outcome : FetchOutcome α) :
    ((createGoal apiUrl token data outcome).1 = .fulfilled outcome.isOk ∧
      (Effect.fetchDashboardData ∈ (createGoal apiUrl token data outcome).2 ↔
        outcome.isOk = true) ∧
      (createGoal apiUrl token data outcome).2.count Effect.fetchDashboardData =
        (if outcome.isOk then 1 else 0)) ∧
    ((createMilestone apiUrl token data outcome).1 = .fulfilled outcome.isOk ∧
      (Effect.fetchDashboardData ∈ (createMilestone apiUrl token data outcome).2 ↔
        outcome.isOk = true) ∧
      (createMilestone apiUrl token data outcome).2.count Effect.fetchDashboardData =
        (if outcome.isOk then 1 else 0)) := by
  rw [createGoal_eq, createMilestone_eq]
  cases outcome with
  | rejected => simp [FetchOutcome.isOk]
  | resolved response => cases hok : response.ok <;> simp [FetchOutcome.isOk, hok]

/-! ### The create dialogs -/

/-- A literal beyond the largest binary64 value reads as `Infinity`. -/
theorem parseFloatText_overflow : parseFloatText "1e400" = .inf false := by
  have h : scanFloat "1e400".toList = .decimal ⟨false, 1, 400⟩ := by decide
  have hm : Decimal.magnitude ⟨false, 1, 400⟩ = .infinite := by decide!
  show (scanFloat "1e400".toList).toNum = _
  rw [h]
  simp only [Scanned.toNum, Decimal.toNum, hm, signedNum]

/-- A negative literal below half the smallest binary64 value reads as the
negative zero, which is not negative. -/
theorem parseFloatText_underflow :
    parseFloatText "-1e-400" = .negZero ∧ ¬ (parseFloatText "-1e-400").isNegative := by
  have h : scanFloat "-1e-400".toList = .decimal ⟨true, 1, -400⟩ := by decide
  have hm : Decimal.magnitude ⟨true, 1, -400⟩ = .zero := by decide!
  have hv : parseFloatText "-1e-400" = .negZero := by
    show (scanFloat "-1e-400".toList).toNum = _
    rw [h]
    simp only [Scanned.toNum, Decimal.toNum, hm, signedNum, if_true]
  rw [hv]
  exact ⟨rfl, fun hneg => hneg⟩

/-- An integer literal with more than 53 significant bits is rounded to the
nearest binary64 value, a tie going to the even significand. -/
theorem parseFloatText_rounds :
    parseFloatText "9007199254740993" = .fin 9007199254740992 := by
  have h : scanFloat "9007199254740993".toList = .decimal ⟨false, 9007199254740993, 0⟩ := by
    decide
  have hm : Decimal.magnitude ⟨false, 9007199254740993, 0⟩ =
      .finite 4503599627370496 1 := by decide
  show (scanFloat "9007199254740993".toList).toNum = _
  rw [h]
  simp only [Scanned.toNum, Decimal.toNum, hm, signedNum]
  norm_num

theorem parseFloat_minus_one : parseFloat (.str "-1") = .fin (-1) := by
  have h : scanFloat "-1".toList = .decimal ⟨true, 1, 0⟩ := by decide
  have hm : Decimal.magnitude ⟨true, 1, 0⟩ = .finite 4503599627370496 (-52) := by decide
  show (scanFloat "-1".toList).toNum = _
  rw [h]
  simp only [Scanned.toNum, Decimal.toNum, hm, signedNum]
  norm_num

/-- C2 (as stated, refuted): opening the dialog, typing the two texts and the
hours `-1`, and submitting leads `handleSubmit` and `createMilestone` to issue the
POST to `/api/milestones` carrying `hours_invested = -1`, a negative number; with
an OK response the dashboard refresh is started and the dialog closes with its
form reset. No validation error arises and a request is issued. -/
theorem negative_hours_are_posted :
    (CreateMilestoneDialog.run "http://localhost:8001" (some "t0") DialogState.initial
        (negativeHoursEvents.take 4)).1.formData = negativeHoursForm ∧
    (parseFloat (Obj.get negativeHoursForm "hours_invested")).isNegative ∧
    CreateMilestoneDialog.run "http://localhost:8001" (some "t0") DialogState.initial
        negativeHoursEvents =
      ({ isOpen := false, formData := [], loading := false },
        [ .fetch
            { method := "POST", url := "http://localhost:8001/api/milestones",
              headers :=
                [("Content-Type", "application/json"), ("Authorization", "Bearer t0")],
              body :=
                some
                  [("what_learned", .str "Ownership"),
                    ("learning_source", .str "Rustlings"),
                    ("hours_invested", .num (.fin (-1)))] },
          .fetchDashboardData ]) := by
  have hget : Obj.get negativeHoursForm "hours_invested" = .str "-1" := by decide
  have hpay : milestonePayload negativeHoursForm =
      [("what_learned", .str "Ownership"), ("learning_source", .str "Rustlings"),
        ("hours_invested", .num (.fin (-1)))] := by
    unfold milestonePayload
    rw [hget, parseFloat_minus_one]
    decide
  have hfilled :
      CreateMilestoneDialog.run "http://localhost:8001" (some "t0") DialogState.initial
        (negativeHoursEvents.take 4) =
      ({ isOpen := true, formData := negativeHoursForm, loading := false }, []) := by
    decide
  have hstep :
      CreateMilestoneDialog.step "http://localhost:8001" (some "t0")
        { isOpen := true, formData := negativeHoursForm, loading := false }
        (.submitted (.resolved { ok := true, json := some () })) =
      ({ isOpen := false, formData := [], loading := false },
        [ .fetch (createMilestoneRequest "http://localhost:8001" (some "t0")
            [("what_learned", .str "Ownership"), ("learning_source", .str "Rustlings"),
              ("hours_invested", .num (.fin (-1)))]),
          .fetchDashboardData ]) := by
    simp only [CreateMilestoneDialog.step, CreateMilestoneDialog.handleSubmit,
      createMilestone_eq, hpay, FetchOutcome.isOk, if_true]
  refine ⟨by rw [hfilled], ?_, ?_⟩
  · rw [hget, parseFloat_minus_one]
    simp [JSNum.isNegative]
  · have hsteps :
        CreateMilestoneDialog.run "http://localhost:8001" (some "t0") DialogState.initial
          negativeHoursEvents =
        ((CreateMilestoneDialog.step "http://localhost:8001" (some "t0")
            { isOpen := true, formData := negativeHoursForm, loading := false }
            (.submitted (.resolved { ok := true, json := some () }))).1,
          (CreateMilestoneDialog.step "http://localhost:8001" (some "t0")
            { isOpen := true, formData := negativeHoursForm, loading := false }
            (.submitted (.resolved { ok := true, json := some () }))).2) := by
      rfl
    rw [hsteps, hstep]
    rfl

theorem issuedRequests_createMilestone {α : Type} (apiUrl : String)
    (token : Option String) (milestoneData : Obj) (outcome : FetchOutcome α) :
    issuedRequests apiUrl token (createMilestone apiUrl token milestoneData outcome).2 =
      createMilestoneRequest apiUrl token milestoneData ::
        (if outcome.isOk then fetchDashboardDataRequests apiUrl token else []) := by
  rw [createMilestone_eq]
  cases outcome with
  | rejected => simp [issuedRequests, FetchOutcome.isOk]
  | resolved response =>
      cases hok : response.ok <;> simp [issuedRequests, FetchOutcome.isOk, hok]

/-- C2 (amended): `handleSubmit` and `createMilestone` validate nothing. For every
dialog state, whatever the hours value (negative included), token and outcome of
the request, a submit first issues the POST to `/api/milestones` whose body is
the form with `hours_invested` replaced by the parsed number; the only other
requests are the four GETs of the dashboard refresh, started after it exactly
when the response is OK; the promise fulfils, so no error is raised; the dialog
closes and resets its form exactly when the response is OK, and otherwise keeps
form and open flag; `loading` ends `false`. -/
theorem submit_posts_whatever_the_hours {α : Type} (apiUrl : String)
    (token : Option String) (st : DialogState) (outcome : FetchOutcome α) :
    (CreateMilestoneDialog.handleSubmit
        (fun milestoneData => createMilestone apiUrl token milestoneData outcome)
        st).2.2 =
      (createMilestone apiUrl token (milestonePayload st.formData) outcome).2 ∧
    issuedRequests apiUrl token
        (CreateMilestoneDialog.handleSubmit
          (fun milestoneData => createMilestone apiUrl token milestoneData outcome)
          st).2.2 =
      { method := "POST", url := apiUrl ++ "/api/milestones",
        headers := [("Content-Type", "application/json"), authHeader token],
        body := some (milestonePayload st.formData) } ::
        (if outcome.isOk then fetchDashboardDataRequests apiUrl token else []) ∧
    (fetchDashboardDataRequests apiUrl token).map (fun r => r.method) =
      ["GET", "GET", "GET", "GET"] ∧
    Obj.get (milestonePayload st.formData) "hours_invested" =
      .num (parseFloat (Obj.get st.formData "hours_invested")) ∧
    (CreateMilestoneDialog.handleSubmit
        (fun milestoneData => createMilestone apiUrl token milestoneData outcome)
        st).2.1 = .fulfilled () ∧
    (CreateMilestoneDialog.handleSubmit
        (fun milestoneData => createMilestone apiUrl token milestoneData outcome)
        st).1 =
      (if outcome.isOk then { isOpen := false, formData := [], loading := false }
       else { st with loading := false }) := by
  have heff : (CreateMilestoneDialog.handleSubmit
        (fun milestoneData => createMilestone apiUrl token milestoneData outcome)
        st).2.2 =
      (createMilestone apiUrl token (milestonePayload st.formData) outcome).2 := by
    simp [CreateMilestoneDialog.handleSubmit, createMilestone_eq]
  refine ⟨heff, ?_, rfl, Obj.get_set_same _ _ _, ?_, ?_⟩
  · rw [heff, issuedRequests_createMilestone]
    rfl
  · simp [CreateMilestoneDialog.handleSubmit, createMilestone_eq]
  · cases h : outcome.isOk <;>
      simp [CreateMilestoneDialog.handleSubmit, createMilestone_eq, h]

/-- Setting an allowed key keeps every key of the object among `allowed`. -/
theorem keysWithin_set (allowed : List String) (o : Obj) (k : String) (v : JSVal)
    (ho : ∀ k' ∈ Obj.keys o, k' ∈ allowed) (hk : k ∈ allowed) :
    ∀ k' ∈ Obj.keys (Obj.set o k v), k' ∈ allowed := by
  intro k' hk'
  rcases (Obj.mem_keys_set o k v k').1 hk' with h | h
  · exact ho k' h
  · exact h ▸ hk

theorem goalDialog_step_keys (apiUrl : String) (token : Option String)
    (st : DialogState) (e : GoalDialogEvent)
    (hst : ∀ k ∈ Obj.keys st.formData, k ∈ goalPayloadKeys) :
    (∀ k ∈ Obj.keys (CreateGoalDialog.step apiUrl token st e).1.formData,
        k ∈ goalPayloadKeys) ∧
    ∀ request ∈ requestsOf (CreateGoalDialog.step apiUrl token st e).2,
      request = createGoalRequest apiUrl token st.formData := by
  cases e with
  | titleChanged value =>
      exact ⟨keysWithin_set _ _ _ _ hst (by decide), by simp [CreateGoalDialog.step, requestsOf]⟩
  | descriptionChanged value =>
      exact ⟨keysWithin_set _ _ _ _ hst (by decide), by simp [CreateGoalDialog.step, requestsOf]⟩
  | targetCompletionChanged value =>
      exact ⟨keysWithin_set _ _ _ _ hst (by decide), by simp [CreateGoalDialog.step, requestsOf]⟩
  | openChanged value => exact ⟨hst, by simp [CreateGoalDialog.step, requestsOf]⟩
  | submitted outcome =>
      have hreq := requestsOf_createGoal apiUrl token st.formData outcome
      rw [createGoal_eq] at hreq
      constructor
      · cases h : outcome.isOk
        · simpa [CreateGoalDialog.step, CreateGoalDialog.handleSubmit, createGoal_eq, h]
            using hst
        · simp [CreateGoalDialog.step, CreateGoalDialog.handleSubmit, createGoal_eq, h,
            Obj.keys]
      · intro request hmem
        have : requestsOf (CreateGoalDialog.step apiUrl token st
            (.submitted outcome)).2 = [createGoalRequest apiUrl token st.formData] := by
          simpa [CreateGoalDialog.step, CreateGoalDialog.handleSubmit, createGoal_eq]
            using hreq
        rw [this] at hmem
        simpa using hmem

theorem milestoneDialog_step_keys (apiUrl : String) (token : Option String)
    (st : DialogState) (e : MilestoneDialogEvent)
    (hst : ∀ k ∈ Obj.keys st.formData, k ∈ milestonePayloadKeys) :
    (∀ k ∈ Obj.keys (CreateMilestoneDialog.step apiUrl token st e).1.formData,
        k ∈ milestonePayloadKeys) ∧
    ∀ request ∈ requestsOf (CreateMilestoneDialog.step apiUrl token st e).2,
      request = createMilestoneRequest apiUrl token (milestonePayload st.formData) := by
  cases e with
  | goalSelected value =>
      exact ⟨keysWithin_set _ _ _ _ hst (by decide),
        by simp [CreateMilestoneDialog.step, requestsOf]⟩
  | whatLearnedChanged value =>
      exact ⟨keysWithin_set _ _ _ _ hst (by decide),
        by simp [CreateMilestoneDialog.step, requestsOf]⟩
  | learningSourceChanged value =>
      exact ⟨keysWithin_set _ _ _ _ hst (by decide),
        by simp [CreateMilestoneDialog.step, requestsOf]⟩
  | canTeachOthersChanged checked =>
      exact ⟨keysWithin_set _ _ _ _ hst (by decide),
        by simp [CreateMilestoneDialog.step, requestsOf]⟩
  | hoursInvestedChanged value =>
      exact ⟨keysWithin_set _ _ _ _ hst (by decide),
        by simp [CreateMilestoneDialog.step, requestsOf]⟩
  | certificateLinkChanged value =>
      exact ⟨keysWithin_set _ _ _ _ hst (by decide),
        by simp [CreateMilestoneDialog.step, requestsOf]⟩
  | openChanged value => exact ⟨hst, by simp [CreateMilestoneDialog.step, requestsOf]⟩
  | submitted outcome =>
      have hreq :=
        requestsOf_createMilestone apiUrl token (milestonePayload st.formData) outcome
      rw [createMilestone_eq] at hreq
      constructor
      · cases h : outcome.isOk
        · simpa [CreateMilestoneDialog.step, CreateMilestoneDialog.handleSubmit,
            createMilestone_eq, h] using hst
        · simp [CreateMilestoneDialog.step, CreateMilestoneDialog.handleSubmit,
            createMilestone_eq, h, Obj.keys]
      · intro request hmem
        have : requestsOf (CreateMilestoneDialog.step apiUrl token st
            (.submitted outcome)).2 =
            [createMilestoneRequest apiUrl token (milestonePayload st.formData)] := by
          simpa [CreateMilestoneDialog.step, CreateMilestoneDialog.handleSubmit,
            createMilestone_eq] using hreq
        rw [this] at hmem
        simpa using hmem

theorem requestsOf_append (xs ys : List Effect) :
    requestsOf (xs ++ ys) = requestsOf xs ++ requestsOf ys := by
  simp [requestsOf, List.filterMap_append]

theorem goalDialog_run_keys (apiUrl : String) (token : Option String)
    (events : List GoalDialogEvent) :
    ∀ st : DialogState, (∀ k ∈ Obj.keys st.formData, k ∈ goalPayloadKeys) →
      ∀ request ∈ requestsOf (CreateGoalDialog.run apiUrl token st events).2,
        ∃ payload, request.body = some payload ∧
          ∀ k ∈ Obj.keys payload, k ∈ goalPayloadKeys := by
  induction events with
  | nil => intro st _ request hmem; simp [CreateGoalDialog.run, requestsOf] at hmem
  | cons e es ih =>
      intro st hst request hmem
      obtain ⟨hkeys, hreqs⟩ := goalDialog_step_keys apiUrl token st e hst
      simp only [CreateGoalDialog.run, requestsOf_append, List.mem_append] at hmem
      rcases hmem with h | h
      · exact ⟨st.formData, by rw [hreqs request h]; rfl, hst⟩
      · exact ih _ hkeys request h

theorem milestoneDialog_run_keys (apiUrl : String) (token : Option String)
    (events : List MilestoneDialogEvent) :
    ∀ st : DialogState, (∀ k ∈ Obj.keys st.formData, k ∈ milestonePayloadKeys) →
      ∀ request ∈ requestsOf (CreateMilestoneDialog.run apiUrl token st events).2,
        ∃ payload, request.body = some payload ∧
          ∀ k ∈ Obj.keys payload, k ∈ milestonePayloadKeys := by
  induction events with
  | nil => intro st _ request hmem; simp [CreateMilestoneDialog.run, requestsOf] at hmem
  | cons e es ih =>
      intro st hst request hmem
      obtain ⟨hkeys, hreqs⟩ := milestoneDialog_step_keys apiUrl token st e hst
      simp only [CreateMilestoneDialog.run, requestsOf_append, List.mem_append] at hmem
      rcases hmem with h | h
      · exact ⟨milestonePayload st.formData, by rw [hreqs request h]; rfl,
          keysWithin_set _ _ _ _ hst (by decide)⟩
      · exact ih _ hkeys request h

/-- C3: starting from the empty form and applying any sequence of field edits,
open/close changes and submits, every request a create dialog issues carries a
payload whose keys are among the form's own fields (six for a milestone, three
for a goal); in particular no payload has a key `created_at`, `id` or `status`. -/
theorem payloads_carry_only_form_fields (apiUrl : String) (token : Option String) :
    (∀ (events : List MilestoneDialogEvent) (request : Request),
      request ∈ requestsOf
          (CreateMilestoneDialog.run apiUrl token DialogState.initial events).2 →
        ∃ payload, request.body = some payload ∧
          (∀ k ∈ Obj.keys payload, k ∈ milestonePayloadKeys) ∧
          ∀ k ∈ serverAssignedKeys, k ∉ Obj.keys payload) ∧
    (∀ (events : List GoalDialogEvent) (request : Request),
      request ∈ requestsOf
          (CreateGoalDialog.run apiUrl token DialogState.initial events).2 →
        ∃ payload, request.body = some payload ∧
          (∀ k ∈ Obj.keys payload, k ∈ goalPayloadKeys) ∧
          ∀ k ∈ serverAssignedKeys, k ∉ Obj.keys payload) := by
  constructor
  · intro events request hmem
    obtain ⟨payload, hbody, hkeys⟩ :=
      milestoneDialog_run_keys apiUrl token events DialogState.initial
        (by simp [DialogState.initial, Obj.keys]) request hmem
    refine ⟨payload, hbody, hkeys, ?_⟩
    intro k hk hmemk
    have h1 := hkeys k hmemk
    revert hk h1
    simp only [serverAssignedKeys, milestonePayloadKeys, List.mem_cons, List.mem_nil_iff,
      or_false]
    rintro (rfl | rfl | rfl) <;> decide
  · intro events request hmem
    obtain ⟨payload, hbody, hkeys⟩ :=
      goalDialog_run_keys apiUrl token events DialogState.initial
        (by simp [DialogState.initial, Obj.keys]) request hmem
    refine ⟨payload, hbody, hkeys, ?_⟩
    intro k hk hmemk
    have h1 := hkeys k hmemk
    revert hk h1
    simp only [serverAssignedKeys, goalPayloadKeys, List.mem_cons, List.mem_nil_iff,
      or_false]
    rintro (rfl | rfl | rfl) <;> decide

/-- C3 (instance): editing the title and submitting issues one request, and its
payload has only the key `title`. -/
theorem payloads_carry_only_form_fields_witness :
    requestsOf
        (CreateGoalDialog.run "http://localhost:8001" (some "t0") DialogState.initial
          [.titleChanged "Learn Rust",
            .submitted (.resolved { ok := false, json := none })]).2 =
      [createGoalRequest "http://localhost:8001" (some "t0")
        [("title", .str "Learn Rust")]] ∧
    ∃ payload,
      (createGoalRequest "http://localhost:8001" (some "t0")
        [("title", .str "Learn Rust")]).body = some payload ∧
      (∀ k ∈ Obj.keys payload, k ∈ goalPayloadKeys) ∧
      ∀ k ∈ serverAssignedKeys, k ∉ Obj.keys payload :=
  ⟨by decide,
    (payloads_carry_only_form_fields "http://localhost:8001" (some "t0")).2
      [.titleChanged "Learn Rust", .submitted (.resolved { ok := false, json := none })]
      _ (by decide)⟩

/-! ### Authorization headers -/

theorem requestsOf_map_fetch (requests : List Request) :
    requestsOf (requests.map Effect.fetch) = requests := by
  induction requests with
  | nil => rfl
  | cons r rs ih =>
      have ih' : List.filterMap
          (fun e => match e with
            | Effect.fetch request => some request
            | _ => none) (List.map Effect.fetch rs) = rs := ih
      simp [requestsOf, ih']

theorem requestsOf_fetchUserProfile (apiUrl : String) (st : AppState)
    (outcome : FetchOutcome Obj) :
    requestsOf (fetchUserProfile apiUrl st outcome).2 =
      [fetchUserProfileRequest apiUrl st.token] := by
  cases outcome with
  | rejected => simp [fetchUserProfile, requestsOf]
  | resolved response =>
      cases hok : response.ok <;> cases hj : response.json <;>
        simp [fetchUserProfile, requestsOf, hok, hj]

theorem fetchDashboardData_effects (apiUrl : String) (st : AppState)
    (statsRes : FetchOutcome DashboardStats) (goalsRes : FetchOutcome (List Goal))
    (milestonesRes : FetchOutcome MonthData) (resourcesRes : FetchOutcome (List Resource)) :
    (fetchDashboardData apiUrl st statsRes goalsRes milestonesRes resourcesRes).2 =
        (fetchDashboardDataRequests apiUrl st.token).map Effect.fetch ∨
    (fetchDashboardData apiUrl st statsRes goalsRes milestonesRes resourcesRes).2 =
        (fetchDashboardDataRequests apiUrl st.token).map Effect.fetch ++
          [.consoleError "Error fetching dashboard data:"] := by
  unfold fetchDashboardData
  split
  · split
    · exact Or.inr rfl
    · split
      · exact Or.inr rfl
      · split
        · exact Or.inr rfl
        · split
          · exact Or.inr rfl
          · exact Or.inl rfl
  · exact Or.inr rfl

theorem requestsOf_fetchDashboardData (apiUrl : String) (st : AppState)
    (statsRes : FetchOutcome DashboardStats) (goalsRes : FetchOutcome (List Goal))
    (milestonesRes : FetchOutcome MonthData) (resourcesRes : FetchOutcome (List Resource)) :
    requestsOf
        (fetchDashboardData apiUrl st statsRes goalsRes milestonesRes resourcesRes).2 =
      fetchDashboardDataRequests apiUrl st.token := by
  rcases fetchDashboardData_effects apiUrl st statsRes goalsRes milestonesRes
    resourcesRes with h | h
  · rw [h, requestsOf_map_fetch]
  · rw [h, requestsOf_append, requestsOf_map_fetch]
    simp [requestsOf]

/-- C5 (as stated, refuted): with the token `t0`, not every request issued by
`fetchDashboardData` carries the header `Authorization: Bearer t0`. -/
theorem dashboard_requests_not_all_authorized :
    ¬ ∀ request ∈
        requestsOf
          (fetchDashboardData "http://localhost:8001" signedInState
            (.resolved { ok := false, json := none })
            (.resolved { ok := false, json := none })
            (.resolved { ok := false, json := none })
            (.resolved { ok := false, json := none })).2,
        request.header "Authorization" = some "Bearer t0" := by
  rw [requestsOf_fetchDashboardData]
  decide

/-- C5 (amended): for every token and every outcome of the requests, the one
request issued by each of `fetchUserProfile`, `createGoal` and `createMilestone`
and the first three of the four requests issued by `fetchDashboardData`
(statistics, goals, milestones of the month) carry the header `Authorization`
equal to `Bearer ` followed by the token; the fourth request of
`fetchDashboardData`, for `/api/resources`, is sent with no header at all. -/
theorem requests_authorized_except_resources (apiUrl : String) (st : AppState)
    (data : Obj) (profileRes : FetchOutcome Obj) (createRes : FetchOutcome Unit)
    (statsRes : FetchOutcome DashboardStats) (goalsRes : FetchOutcome (List Goal))
    (milestonesRes : FetchOutcome MonthData) (resourcesRes : FetchOutcome (List Resource)) :
    (requestsOf (fetchUserProfile apiUrl st profileRes).2).map
        (fun r => r.header "Authorization") =
      [some ("Bearer " ++ tokenText st.token)] ∧
    (requestsOf (createGoal apiUrl st.token data createRes).2).map
        (fun r => r.header "Authorization") =
      [some ("Bearer " ++ tokenText st.token)] ∧
    (requestsOf (createMilestone apiUrl st.token data createRes).2).map
        (fun r => r.header "Authorization") =
      [some ("Bearer " ++ tokenText st.token)] ∧
    (requestsOf
        (fetchDashboardData apiUrl st statsRes goalsRes milestonesRes resourcesRes).2).map
        (fun r => r.url) =
      [apiUrl ++ "/api/dashboard/stats", apiUrl ++ "/api/goals",
        apiUrl ++ "/api/milestones/current-month", apiUrl ++ "/api/resources"] ∧
    (requestsOf
        (fetchDashboardData apiUrl st statsRes goalsRes milestonesRes resourcesRes).2).map
        (fun r => r.header "Authorization") =
      [some ("Bearer " ++ tokenText st.token), some ("Bearer " ++ tokenText st.token),
        some ("Bearer " ++ tokenText st.token), none] ∧
    (requestsOf
        (fetchDashboardData apiUrl st statsRes goalsRes milestonesRes resourcesRes).2).map
        (fun r => r.headers) =
      [[authHeader st.token], [authHeader st.token], [authHeader st.token], []] := by
  rw [requestsOf_fetchUserProfile, requestsOf_createGoal, requestsOf_createMilestone,
    requestsOf_fetchDashboardData]
  refine ⟨?_, ?_, ?_, rfl, ?_, rfl⟩ <;>
    simp [fetchUserProfileRequest, createGoalRequest, createMilestoneRequest,
      fetchDashboardDataRequests, Request.header, authHeader, List.lookup]

/-! ### The core as modelled from the specification -/

theorem Core.progressPercentage_bounds (c t : ℚ) (hc : 0 ≤ c) :
    0 ≤ Core.progressPercentage c t ∧ Core.progressPercentage c t ≤ 100 := by
  unfold Core.progressPercentage
  split
  · rename_i hpos
    have hx : (0 : ℚ) ≤ c / t * 100 := by positivity
    have hr : (0 : ℤ) ≤ round (c / t * 100) := by
      rw [round_eq]
      exact Int.floor_nonneg.mpr (by linarith)
    constructor
    · exact_mod_cast le_min (by norm_num) hr
    · exact_mod_cast min_le_left (100 : ℤ) (round (c / t * 100))
  · constructor <;> norm_num

/-- C6 (as stated, refuted): for statistics with 30 hours against a target of 20
and a received `progress_percentage` of 150, `DashboardView` hands 150 to the
progress bar: more than 100, and not `min(100, round(30 / 20 × 100))`, which is
100. -/
theorem progress_bar_value_not_clamped :
    (DashboardView (some uncappedStats) []).progressValue = some 150 ∧
    (100 : ℚ) < 150 ∧
    Core.progressPercentage uncappedStats.current_month_hours uncappedStats.target_hours =
      100 ∧
    (DashboardView (some uncappedStats) []).progressValue ≠
      some (Core.progressPercentage uncappedStats.current_month_hours
        uncappedStats.target_hours) := by
  have hround : round ((30 : ℚ) / 20 * 100) = 150 := by
    rw [round_eq]; norm_num [Int.floor_eq_iff]
  have hformula : Core.progressPercentage uncappedStats.current_month_hours
      uncappedStats.target_hours = 100 := by
    simp [uncappedStats, Core.progressPercentage, hround]
  have hshown : (DashboardView (some uncappedStats) []).progressValue = some 150 := rfl
  refine ⟨hshown, by norm_num, hformula, ?_⟩
  rw [hshown, hformula]
  norm_num

/-- C6 (amended): the value `DashboardView` hands to the progress bar is
`stats.progress_percentage` exactly as received; the component neither computes
it from `current_month_hours` and `target_hours` nor clamps it. So whenever the
received value was computed by the specified formula, what is shown is
`min(100, round(current_month_hours / target_hours × 100))` for
`target_hours > 0` and `0` for `target_hours = 0`, within 0 and 100 for
non-negative hours; any other received value is shown unchanged. -/
theorem progress_bar_shows_received_value (stats : DashboardStats)
    (milestones : List Milestone) :
    (DashboardView (some stats) milestones).progressValue =
      some stats.progress_percentage ∧
    (stats.progress_percentage =
        Core.progressPercentage stats.current_month_hours stats.target_hours →
      (0 < stats.target_hours →
        (DashboardView (some stats) milestones).progressValue =
          some ((min 100
            (round (stats.current_month_hours / stats.target_hours * 100)) : ℤ) : ℚ)) ∧
      (stats.target_hours = 0 →
        (DashboardView (some stats) milestones).progressValue = some 0) ∧
      (0 ≤ stats.current_month_hours →
        ∃ v, (DashboardView (some stats) milestones).progressValue = some v ∧
          0 ≤ v ∧ v ≤ 100)) := by
  refine ⟨rfl, ?_⟩
  intro hserver
  have hshown : (DashboardView (some stats) milestones).progressValue =
      some (Core.progressPercentage stats.current_month_hours stats.target_hours) := by
    rw [← hserver]
    rfl
  refine ⟨?_, ?_, ?_⟩
  · intro hpos
    rw [hshown, Core.progressPercentage, if_pos hpos]
  · intro hzero
    rw [hshown, Core.progressPercentage, hzero]
    simp
  · intro hc
    exact ⟨_, hshown, Core.progressPercentage_bounds _ _ hc⟩

theorem Core.find_after_status_update (goals : List Core.Goal) (goalId : Nat)
    (newStatus : Core.GoalStatus) :
    (goals.map fun g => if g.id = goalId then { g with status := newStatus } else g).find?
        (fun g => g.id = goalId) =
      (goals.find? (fun g => g.id = goalId)).map fun g => { g with status := newStatus } := by
  induction goals with
  | nil => rfl
  | cons g rest ih =>
      by_cases h : g.id = goalId
      · simp [List.find?, h]
      · simp [List.find?, h, ih]

theorem Core.createGoal_valid (store : Core.Store) (now : Nat)
    (userId title description : String) (date : Core.Date) (htitle : title ≠ "")
    (hdesc : description ≠ "") (hdate : date.wellFormed = true) :
    Core.createGoal store now userId title description (some date) =
      .ok
        ((⟨store.nextId, userId, title, description, date, .active, now⟩ : Core.Goal),
          { store with
            goals := store.goals ++
              [(⟨store.nextId, userId, title, description, date, .active, now⟩ : Core.Goal)],
            nextId := store.nextId + 1 }) := by
  simp [Core.createGoal, htitle, hdesc, hdate]

/-- C7: in the core as the specification describes it, a goal that exists can
change status exactly along `active → completed` and `active → abandoned`: for
those two requests `transitionGoalStatus` succeeds and the goal then has the new
status, and for every other pair of current and requested status (from
`completed` or `abandoned` to anything, from `active` to `active`) it fails with
`InvalidTransitionError`; `createGoal` succeeds on valid input, and every goal it
returns has status `active`. -/
theorem goal_status_transitions (store : Core.Store) (goalId : Nat) (goal : Core.Goal)
    (newStatus : Core.GoalStatus)
    (hfind : store.goals.find? (fun g => g.id = goalId) = some goal) :
    ((goal.status = .active ∧ (newStatus = .completed ∨ newStatus = .abandoned)) →
      ∃ store', Core.transitionGoalStatus store goalId newStatus = .ok store' ∧
        store'.goals.find? (fun g => g.id = goalId) =
          some { goal with status := newStatus }) ∧
    (¬ (goal.status = .active ∧ (newStatus = .completed ∨ newStatus = .abandoned)) →
      Core.transitionGoalStatus store goalId newStatus =
        .error .invalidTransitionError) ∧
    (∀ (now : Nat) (userId title description : String) (date : Core.Date),
      title ≠ "" → description ≠ "" → date.wellFormed = true →
        ∃ created store', Core.createGoal store now userId title description (some date) =
          .ok (created, store') ∧ created.status = .active) ∧
    (∀ (now : Nat) (userId title description : String) (date : Option Core.Date)
      (created : Core.Goal) (store' : Core.Store),
      Core.createGoal store now userId title description date = .ok (created, store') →
        created.status = .active) := by
  refine ⟨?_, ?_, ?_, ?_⟩
  · rintro ⟨hactive, hnew⟩
    have hallowed : Core.allowedTransition goal.status newStatus = true := by
      rw [hactive]
      rcases hnew with h | h <;> rw [h] <;> rfl
    refine ⟨{ store with
        goals := store.goals.map fun g =>
          if g.id = goalId then { g with status := newStatus } else g }, ?_, ?_⟩
    · simp [Core.transitionGoalStatus, hfind, hallowed]
    · simp only [Core.find_after_status_update, hfind, Option.map_some']
  · intro hnot
    have hdenied : Core.allowedTransition goal.status newStatus = false := by
      cases hs : goal.status <;> cases hn : newStatus <;>
        simp [Core.allowedTransition, hs, hn] at hnot ⊢
    simp [Core.transitionGoalStatus, hfind, hdenied]
  · intro now userId title description date htitle hdesc hdate
    exact ⟨_, _, Core.createGoal_valid store now userId title description date htitle
      hdesc hdate, rfl⟩
  · intro now userId title description date created store' hcreate
    unfold Core.createGoal at hcreate
    split at hcreate
    · cases hcreate
    · split at hcreate
      · cases hcreate
      · split at hcreate
        · cases hcreate
        · split at hcreate
          · cases hcreate
            rfl
          · cases hcreate

/-- C7 (instance): on a store with one active goal, requesting `completed`
succeeds and requesting `active` is an invalid transition. -/
theorem goal_status_transitions_witness :
    (∃ store', Core.transitionGoalStatus Core.oneGoalStore 0 .completed = .ok store') ∧
    Core.transitionGoalStatus Core.oneGoalStore 0 .active =
      .error .invalidTransitionError :=
  ⟨((goal_status_transitions Core.oneGoalStore 0 Core.rustGoal .completed
      (by decide)).1 ⟨rfl, Or.inl rfl⟩).imp fun _ h => h.1,
    (goal_status_transitions Core.oneGoalStore 0 Core.rustGoal .active
      (by decide)).2.1 (by decide)⟩

theorem Core.findResource_cons (r : Core.Resource) (rest : List Core.Resource)
    (name : String) :
    Core.findResource (r :: rest) name =
      if r.name = name then some r else Core.findResource rest name := by
  by_cases h : r.name = name <;> simp [Core.findResource, List.find?, h]

theorem Core.recordUsage_cons_same (r : Core.Resource) (rest : List Core.Resource)
    (s : String) (h : ℚ) (tags : List String) (hr : r.name = s) :
    Core.recordUsage (r :: rest) s h tags =
      { r with usage_count := r.usage_count + 1, total_hours := r.total_hours + h,
               skills_taught := r.skills_taught ∪ tags } :: rest := by
  rw [Core.recordUsage, if_pos hr]

theorem Core.recordUsage_cons_other (r : Core.Resource) (rest : List Core.Resource)
    (s : String) (h : ℚ) (tags : List String) (hr : ¬ r.name = s) :
    Core.recordUsage (r :: rest) s h tags = r :: Core.recordUsage rest s h tags := by
  rw [Core.recordUsage, if_neg hr]

theorem Core.findResource_recordUsage_same (ledger : List Core.Resource) (s : String)
    (h : ℚ) (tags : List String) :
    ∃ r', Core.findResource (Core.recordUsage ledger s h tags) s = some r' ∧
      r'.name = s ∧
      r'.usage_count = ((Core.findResource ledger s).map fun r => r.usage_count).getD 0 + 1 ∧
      r'.total_hours = ((Core.findResource ledger s).map fun r => r.total_hours).getD 0 + h := by
  induction ledger with
  | nil =>
      refine ⟨⟨s, 1, h, tags.dedup⟩, ?_, rfl, ?_, ?_⟩
      · rw [Core.recordUsage, Core.findResource_cons, if_pos rfl]
      · simp [Core.findResource]
      · simp [Core.findResource]
  | cons r rest ih =>
      by_cases hr : r.name = s
      · refine ⟨{ r with usage_count := r.usage_count + 1, total_hours := r.total_hours + h,
                         skills_taught := r.skills_taught ∪ tags }, ?_, hr, ?_, ?_⟩
        · rw [Core.recordUsage_cons_same _ _ _ _ _ hr, Core.findResource_cons, if_pos hr]
        · rw [Core.findResource_cons, if_pos hr]
          rfl
        · rw [Core.findResource_cons, if_pos hr]
          rfl
      · obtain ⟨r', h1, h2, h3, h4⟩ := ih
        refine ⟨r', ?_, h2, ?_, ?_⟩
        · rw [Core.recordUsage_cons_other _ _ _ _ _ hr, Core.findResource_cons, if_neg hr]
          exact h1
        · rw [Core.findResource_cons, if_neg hr]
          exact h3
        · rw [Core.findResource_cons, if_neg hr]
          exact h4

theorem Core.findResource_recordUsage_other (ledger : List Core.Resource) (s : String)
    (h : ℚ) (tags : List String) (name : String) (hne : name ≠ s) :
    Core.findResource (Core.recordUsage ledger s h tags) name =
      Core.findResource ledger name := by
  induction ledger with
  | nil =>
      rw [Core.recordUsage, Core.findResource_cons, if_neg (Ne.symm hne)]
  | cons r rest ih =>
      by_cases hr : r.name = s
      · have hrn : ¬ r.name = name := fun h' => hne (h' ▸ hr)
        rw [Core.recordUsage_cons_same _ _ _ _ _ hr, Core.findResource_cons,
          Core.findResource_cons, if_neg hrn, if_neg hrn]
      · rw [Core.recordUsage_cons_other _ _ _ _ _ hr, Core.findResource_cons,
          Core.findResource_cons, ih]

theorem Core.recordUsage_others_unchanged (ledger : List Core.Resource) (s : String)
    (h : ℚ) (tags : List String) :
    (Core.recordUsage ledger s h tags).filter (fun r => decide (r.name ≠ s)) =
      ledger.filter (fun r => decide (r.name ≠ s)) := by
  induction ledger with
  | nil =>
      rw [Core.recordUsage, List.filter_cons_of_neg (by simp)]
  | cons r rest ih =>
      by_cases hr : r.name = s
      · rw [Core.recordUsage_cons_same _ _ _ _ _ hr,
          List.filter_cons_of_neg (by simpa using hr),
          List.filter_cons_of_neg (by simpa using hr)]
      · rw [Core.recordUsage_cons_other _ _ _ _ _ hr,
          List.filter_cons_of_pos (by simpa using hr),
          List.filter_cons_of_pos (by simpa using hr), ih]

theorem Core.createMilestone_valid (isUrl : String → Bool) (store : Core.Store)
    (now : Nat) (input : Core.MilestoneInput)
    (hvalid : Core.validateMilestone isUrl input = none)
    (hgoal : Core.checkGoal store input.userId input.goalId = none) :
    ∃ milestone, Core.createMilestone isUrl store now input =
      .ok (milestone,
        { store with
          milestones := store.milestones ++ [milestone],
          resources :=
            Core.recordUsage store.resources input.learningSource input.hoursInvested [],
          nextId := store.nextId + 1 }) := by
  refine ⟨(⟨store.nextId, input.userId, input.goalId, input.whatLearned,
    input.learningSource, input.hoursInvested, input.canTeachOthers,
    input.certificateLink, now⟩ : Core.Milestone), ?_⟩
  simp only [Core.createMilestone, hvalid, hgoal]

/-- C8: in the core as the specification describes it, creating a valid
milestone with learning source `s` and hours `h` succeeds, and afterwards the
ledger's resource named exactly `s` has `usage_count` one more than before (1 if
there was none) and `total_hours` greater by `h` (`h` if there was none), while
the lookup of every other name, and the list of resources with another name,
are unchanged. -/
theorem milestone_creation_updates_ledger (isUrl : String → Bool) (store : Core.Store)
    (now : Nat) (input : Core.MilestoneInput)
    (hlearned : input.whatLearned ≠ "") (hsource : input.learningSource ≠ "")
    (hhours : 0 ≤ input.hoursInvested)
    (hlink : ∀ link, input.certificateLink = some link → isUrl link = true)
    (hgoal : Core.checkGoal store input.userId input.goalId = none) :
    ∃ milestone store',
      Core.createMilestone isUrl store now input = .ok (milestone, store') ∧
      (∃ r', Core.findResource store'.resources input.learningSource = some r' ∧
        r'.name = input.learningSource ∧
        r'.usage_count =
          ((Core.findResource store.resources input.learningSource).map
            fun r => r.usage_count).getD 0 + 1 ∧
        r'.total_hours =
          ((Core.findResource store.resources input.learningSource).map
            fun r => r.total_hours).getD 0 + input.hoursInvested) ∧
      (∀ name, name ≠ input.learningSource →
        Core.findResource store'.resources name = Core.findResource store.resources name) ∧
      store'.resources.filter (fun r => decide (r.name ≠ input.learningSource)) =
        store.resources.filter (fun r => decide (r.name ≠ input.learningSource)) := by
  have hvalid : Core.validateMilestone isUrl input = none := by
    unfold Core.validateMilestone
    rw [if_neg hlearned, if_neg hsource, if_neg (not_lt.mpr hhours)]
    cases hl : input.certificateLink with
    | none => rfl
    | some link => simp [hlink link hl]
  obtain ⟨milestone, hcreate⟩ := Core.createMilestone_valid isUrl store now input hvalid hgoal
  refine ⟨milestone, _, hcreate, ?_, ?_, ?_⟩
  · exact Core.findResource_recordUsage_same _ _ _ _
  · intro name hne
    exact Core.findResource_recordUsage_other _ _ _ _ name hne
  · exact Core.recordUsage_others_unchanged _ _ _ _

/-- C8 (instance): a second milestone citing `Rustlings` for two hours raises the
resource from one use and three hours to two uses and five hours, and the name
`rustlings` in lower case still has no resource. -/
theorem milestone_creation_updates_ledger_witness :
    ∃ milestone store',
      Core.createMilestone (fun _ => true) Core.rustlingsStore 7 Core.rustlingsInput =
        .ok (milestone, store') ∧
      (∃ r', Core.findResource store'.resources "Rustlings" = some r' ∧
        r'.usage_count = 2 ∧ r'.total_hours = 5) ∧
      Core.findResource store'.resources "rustlings" = none := by
  obtain ⟨milestone, store', hcreate, ⟨r', hfind, _, hcount, hhours⟩, hothers, _⟩ :=
    milestone_creation_updates_ledger (fun _ => true) Core.rustlingsStore 7
      Core.rustlingsInput (by decide) (by decide)
      (by simp [Core.rustlingsInput]) (by simp) (by decide)
  refine ⟨milestone, store', hcreate, ⟨r', hfind, ?_, ?_⟩, ?_⟩
  · simpa [Core.findResource, Core.rustlingsStore, Core.rustlingsInput, List.find?]
      using hcount
  · rw [hhours]
    simp [Core.findResource, Core.rustlingsStore, Core.rustlingsInput, List.find?]
    norm_num
  · rw [hothers "rustlings" (by decide)]
    decide

/-! ### `AuthScreen`: the comma separated inputs -/

theorem splitChars_ne_nil (sep : Char) (cs : List Char) : splitChars sep cs ≠ [] := by
  cases cs with
  | nil => simp [splitChars]
  | cons c cs =>
      unfold splitChars
      split
      · simp
      · split <;> simp

theorem splitChars_cons_sep (sep : Char) (cs : List Char) :
    splitChars sep (sep :: cs) = [] :: splitChars sep cs := by
  rw [splitChars, if_pos rfl]

theorem splitChars_cons_other (sep c : Char) (cs seg : List Char)
    (segs : List (List Char)) (h : ¬ c = sep) (hs : splitChars sep cs = seg :: segs) :
    splitChars sep (c :: cs) = (c :: seg) :: segs := by
  rw [splitChars, if_neg h, hs]

theorem splitChars_length (sep : Char) (cs : List Char) :
    (splitChars sep cs).length = cs.count sep + 1 := by
  induction cs with
  | nil => simp [splitChars]
  | cons c cs ih =>
      by_cases h : c = sep
      · subst h
        rw [splitChars_cons_sep, List.length_cons, ih, List.count_cons_self]
      · have hcount : (c :: cs).count sep = cs.count sep := by
          rw [List.count_cons]
          simp [h]
        cases hs : splitChars sep cs with
        | nil => exact absurd hs (splitChars_ne_nil sep cs)
        | cons seg segs =>
            rw [splitChars_cons_other sep c cs seg segs h hs, hcount, ← ih, hs]
            rfl

theorem joinChars_splitChars (sep : Char) (cs : List Char) :
    joinChars sep (splitChars sep cs) = cs := by
  induction cs with
  | nil => simp [splitChars, joinChars]
  | cons c cs ih =>
      cases hs : splitChars sep cs with
      | nil => exact absurd hs (splitChars_ne_nil sep cs)
      | cons seg segs =>
          rw [hs] at ih
          by_cases h : c = sep
          · subst h
            rw [splitChars_cons_sep, hs, joinChars, ih]
            rfl
          · rw [splitChars_cons_other sep c cs seg segs h hs]
            cases segs with
            | nil =>
                simp only [joinChars] at ih ⊢
                rw [ih]
            | cons next rest =>
                simp only [joinChars] at ih ⊢
                rw [← ih]
                rfl

/-- C9 (as stated, refuted): typing `Python, Python` into the skills input stores
the list `["Python", "Python"]`, which has a duplicate entry. -/
theorem skills_value_keeps_duplicates :
    Obj.get (AuthScreen.existingSkillsChanged [] "Python, Python") "existing_skills" =
      .arr ["Python", "Python"] ∧
    ¬ (splitAndTrim "Python, Python").Nodup := by
  decide

/-- C9 (amended): for every text entered in either comma separated input, the
value stored under `existing_skills` (respectively `learning_interests`) is the
list of the segments of the text between commas, each trimmed, in input order:
one entry per segment, that is one more than the number of commas, the
untrimmed segments joined by commas giving back the text. Nothing removes
repeated entries. -/
theorem skills_value_is_trimmed_segments (formData : Obj) (text : String) :
    Obj.get (AuthScreen.existingSkillsChanged formData text) "existing_skills" =
      .arr ((jsSplitComma text).map jsTrim) ∧
    Obj.get (AuthScreen.learningInterestsChanged formData text) "learning_interests" =
      .arr ((jsSplitComma text).map jsTrim) ∧
    ((jsSplitComma text).map jsTrim).length = text.toList.count ',' + 1 ∧
    joinChars ',' ((jsSplitComma text).map String.toList) = text.toList := by
  refine ⟨Obj.get_set_same _ _ _, Obj.get_set_same _ _ _, ?_, ?_⟩
  · simp [jsSplitComma, splitChars_length]
  · have h : (jsSplitComma text).map String.toList = splitChars ',' text.toList := by
      simp [jsSplitComma, Function.comp_def]
    rw [h, joinChars_splitChars]

/-! ### The milestone payload -/

theorem Obj.keys_set (o : Obj) (k : String) (v : JSVal) :
    Obj.keys (Obj.set o k v) = if k ∈ Obj.keys o then Obj.keys o else Obj.keys o ++ [k] := by
  induction o with
  | nil => simp [Obj.set, Obj.keys]
  | cons kv rest ih =>
      obtain ⟨k0, v0⟩ := kv
      have ih' : List.map Prod.fst (Obj.set rest k v) =
          if k ∈ List.map Prod.fst rest then List.map Prod.fst rest
          else List.map Prod.fst rest ++ [k] := ih
      by_cases h : k0 = k
      · subst h
        simp [Obj.set, Obj.keys]
      · have h' : ¬ k = k0 := fun e => h e.symm
        by_cases hm : k ∈ List.map Prod.fst rest
        · simp only [Obj.set, if_neg h, Obj.keys, List.map_cons, ih', if_pos hm,
            List.mem_cons, h', false_or]
        · simp only [Obj.set, if_neg h, Obj.keys, List.map_cons, ih', if_neg hm,
            List.mem_cons, h', false_or, List.cons_append]

theorem parseFloat_two_and_a_half : parseFloat (.str "2.5") = .fin (5 / 2) := by
  have h : scanFloat "2.5".toList = .decimal ⟨false, 25, -1⟩ := by decide
  have hm : Decimal.magnitude ⟨false, 25, -1⟩ = .finite 5629499534213120 (-51) := by
    decide
  show (scanFloat "2.5".toList).toNum = _
  rw [h]
  simp only [Scanned.toNum, Decimal.toNum, hm, signedNum]
  norm_num

/-- C10: the payload that `handleSubmit` passes on is the form data with only
`hours_invested` changed. For every form state, `hours_invested` in the payload is
the number parsed from the form's hours value, a number and not the raw string
(`NaN` if the form has no hours value); every other key reads the same in
payload and form and is present in one exactly when it is in the other, so no
other field is added or dropped; the payload has the form's keys in the form's
order, plus `hours_invested` at the end if the form lacks it, and so exactly the
form's keys whenever the form has an hours value. -/
theorem payload_is_form_with_parsed_hours (formData : Obj) :
    Obj.get (milestonePayload formData) "hours_invested" =
      .num (parseFloat (Obj.get formData "hours_invested")) ∧
    (Obj.get (milestonePayload formData) "hours_invested").isNumber = true ∧
    (∀ text, Obj.get formData "hours_invested" = .str text →
      Obj.get (milestonePayload formData) "hours_invested" = .num (parseFloatText text) ∧
      Obj.get (milestonePayload formData) "hours_invested" ≠ .str text) ∧
    ("hours_invested" ∉ Obj.keys formData →
      Obj.get (milestonePayload formData) "hours_invested" = .num .nan) ∧
    (∀ k, k ≠ "hours_invested" →
      Obj.get (milestonePayload formData) k = Obj.get formData k) ∧
    (∀ k, k ≠ "hours_invested" →
      (k ∈ Obj.keys (milestonePayload formData) ↔ k ∈ Obj.keys formData)) ∧
    Obj.keys (milestonePayload formData) =
      (if "hours_invested" ∈ Obj.keys formData then Obj.keys formData
       else Obj.keys formData ++ ["hours_invested"]) ∧
    ("hours_invested" ∈ Obj.keys formData →
      Obj.keys (milestonePayload formData) = Obj.keys formData) := by
  have hkeys := Obj.keys_set formData "hours_invested"
    (.num (parseFloat (Obj.get formData "hours_invested")))
  refine ⟨Obj.get_set_same _ _ _, ?_, ?_, ?_, ?_, ?_, hkeys, ?_⟩
  · rw [milestonePayload, Obj.get_set_same]
    rfl
  · intro text htext
    rw [milestonePayload, Obj.get_set_same, htext]
    exact ⟨rfl, fun h => by cases h⟩
  · intro habsent
    rw [milestonePayload, Obj.get_set_same, Obj.get_of_not_mem _ _ habsent]
    decide
  · intro k hk
    exact Obj.get_set_other _ _ _ k hk
  · intro k hk
    rw [milestonePayload, Obj.mem_keys_set]
    exact ⟨fun h => h.resolve_right hk, Or.inl⟩
  · intro hpresent
    rw [milestonePayload, hkeys, if_pos hpresent]

/-- C10 (instance): for a filled form with the hours text `2.5` the payload has
the number 2.5 under `hours_invested`, the same goal, texts and switch, and
exactly the form's keys. -/
theorem payload_is_form_with_parsed_hours_witness :
    milestonePayload filledMilestoneForm =
      [("goal_id", .str "g1"), ("what_learned", .str "Ownership"),
        ("learning_source", .str "Rustlings"), ("can_teach_others", .bool true),
        ("hours_invested", .num (.fin (5 / 2)))] ∧
    Obj.keys (milestonePayload filledMilestoneForm) = Obj.keys filledMilestoneForm := by
  have hget : Obj.get filledMilestoneForm "hours_invested" = .str "2.5" := by decide
  refine ⟨?_, (payload_is_form_with_parsed_hours filledMilestoneForm).2.2.2.2.2.2.2
    (by decide)⟩
  unfold milestonePayload
  rw [hget, parseFloat_two_and_a_half]
  rfl

/-! ### `App`: authentication and logout -/

/-- C11: for every application state and every call of `handleAuth`, `loading` is
`false` when the call completes; if the response is not OK or the request throws,
the token, the user, the current view and the token kept in `localStorage` are
what they were before; any of the four differs from before only if the response
is OK; and on an OK response with a decoded body the token is
`result.access_token`, `localStorage` keeps that token (as the string it stores
for it), the user is `result.user` and the view is `dashboard`. -/
theorem failed_auth_changes_nothing (apiUrl : String) (st : AppState)
    (endpoint : String) (data : Obj) (outcome : FetchOutcome AuthResult) :
    (handleAuth apiUrl st endpoint data outcome).1.loading = false ∧
    (outcome.isOk = false →
      (handleAuth apiUrl st endpoint data outcome).1.token = st.token ∧
      (handleAuth apiUrl st endpoint data outcome).1.user = st.user ∧
      (handleAuth apiUrl st endpoint data outcome).1.currentView = st.currentView ∧
      (handleAuth apiUrl st endpoint data outcome).1.storedToken = st.storedToken) ∧
    (((handleAuth apiUrl st endpoint data outcome).1.token ≠ st.token ∨
      (handleAuth apiUrl st endpoint data outcome).1.user ≠ st.user ∨
      (handleAuth apiUrl st endpoint data outcome).1.currentView ≠ st.currentView ∨
      (handleAuth apiUrl st endpoint data outcome).1.storedToken ≠ st.storedToken) →
      outcome.isOk = true) ∧
    (∀ (response : Response AuthResult) (result : AuthResult),
      outcome = .resolved response → response.ok = true → response.json = some result →
        (handleAuth apiUrl st endpoint data outcome).1.token = result.access_token ∧
        (handleAuth apiUrl st endpoint data outcome).1.storedToken =
          some (storedText result.access_token) ∧
        (∀ t, result.access_token = some t →
          (handleAuth apiUrl st endpoint data outcome).1.storedToken = some t) ∧
        (handleAuth apiUrl st endpoint data outcome).1.user = result.user ∧
        (handleAuth apiUrl st endpoint data outcome).1.currentView = "dashboard") := by
  cases outcome with
  | rejected =>
      refine ⟨rfl, fun _ => ⟨rfl, rfl, rfl, rfl⟩, ?_, ?_⟩
      · intro hdiff
        simp [handleAuth, handleAuthTry] at hdiff
      · intro response result hout
        cases hout
  | resolved response =>
      obtain ⟨ok, json⟩ := response
      cases json with
      | none =>
          refine ⟨rfl, fun _ => ⟨rfl, rfl, rfl, rfl⟩, ?_, ?_⟩
          · intro hdiff
            simp [handleAuth, handleAuthTry] at hdiff
          · intro response result hout hok hj
            cases hout
            cases hj
      | some body =>
          cases ok with
          | false =>
              refine ⟨rfl, fun _ => ⟨rfl, rfl, rfl, rfl⟩, ?_, ?_⟩
              · intro hdiff
                simp [handleAuth, handleAuthTry] at hdiff
              · intro response result hout hok hj
                cases hout
                cases hok
          | true =>
              refine ⟨rfl, ?_, fun _ => rfl, ?_⟩
              · intro hnot
                cases hnot
              · intro response result hout hok hj
                cases hout
                cases hj
                refine ⟨rfl, rfl, ?_, rfl, rfl⟩
                intro t ht
                show some (storedText body.access_token) = some t
                rw [ht]
                rfl

/-- C12: from every application state, after `handleLogout` the token is `null`,
the user is `null`, the current view is `login` and the token kept in
`localStorage` is removed, and `App` then renders the `AuthScreen`; in every
state `App` renders the authenticated page exactly when the token is a
non-empty string. -/
theorem logout_returns_to_auth_screen (st : AppState) :
    (handleLogout st).token = none ∧
    (handleLogout st).user = none ∧
    (handleLogout st).currentView = "login" ∧
    (handleLogout st).storedToken = none ∧
    App (handleLogout st) = .authScreen st.loading ∧
    ((App st).isMain = true ↔ ∃ t, st.token = some t ∧ t ≠ "") := by
  refine ⟨rfl, rfl, rfl, rfl, rfl, ?_⟩
  cases ht : st.token with
  | none => simp [App, tokenIsFalsy, ht, AppRender.isMain]
  | some t =>
      by_cases he : t = ""
      · simp [App, tokenIsFalsy, ht, AppRender.isMain, he]
      · simp [App, tokenIsFalsy, ht, AppRender.isMain, he]

/-- C13: `handleLogout` leaves the loaded data alone: for every application
state, `dashboardStats`, `goals`, `milestones` and `resources` (and `loading`)
are the same after it as before; only the token, the user, the current view and
the token kept in `localStorage` are written. -/
theorem logout_keeps_loaded_data (st : AppState) :
    (handleLogout st).dashboardStats = st.dashboardStats ∧
    (handleLogout st).goals = st.goals ∧
    (handleLogout st).milestones = st.milestones ∧
    (handleLogout st).resources = st.resources ∧
    (handleLogout st).loading = st.loading ∧
    handleLogout st =
      { st with storedToken := none, token := none, user := none,
                currentView := "login" } :=
  ⟨rfl, rfl, rfl, rfl, rfl, rfl⟩

/-- C14: once the statistics are loaded, the status line under the progress bar
reads the remaining hours `target_hours − current_month_hours` if and only if
`current_month_hours < target_hours`, and `Target achieved!` otherwise; with
`target_hours = 0` it reads `Target achieved!` for every non-negative
`current_month_hours`, zero included. -/
theorem status_line_by_exact_comparison (stats : DashboardStats)
    (milestones : List Milestone) :
    ∃ d : Dashboard,
      DashboardView (some stats) milestones = .dashboard d ∧
      (d.month.status = .remaining (stats.target_hours - stats.current_month_hours) ↔
        stats.current_month_hours < stats.target_hours) ∧
      (d.month.status = .targetAchieved ↔
        ¬ stats.current_month_hours < stats.target_hours) ∧
      (∀ hours, d.month.status = .remaining hours →
        hours = stats.target_hours - stats.current_month_hours) ∧
      (stats.target_hours = 0 → 0 ≤ stats.current_month_hours →
        d.month.status = .targetAchieved) := by
  have hiff : stats.target_hours - stats.current_month_hours > 0 ↔
      stats.current_month_hours < stats.target_hours := sub_pos
  refine ⟨_, rfl, ?_, ?_, ?_, ?_⟩
  · by_cases h : stats.current_month_hours < stats.target_hours
    · simp [monthCard, hiff, h]
    · simp [monthCard, hiff, h]
  · by_cases h : stats.current_month_hours < stats.target_hours
    · simp [monthCard, hiff, h]
    · simp [monthCard, hiff, h]
  · intro hours
    by_cases h : stats.current_month_hours < stats.target_hours
    · simp only [monthCard, gt_iff_lt, sub_pos, h, if_true, StatusLine.remaining.injEq]
      exact fun e => e.symm
    · simp [monthCard, hiff, h]
  · intro hzero hc
    have h : ¬ stats.current_month_hours < stats.target_hours := by
      rw [hzero]
      exact not_lt.mpr hc
    simp [monthCard, hiff, h]

/-- C11 (instance): a login rejected by the server, attempted from the signed-in
state, keeps token, user, view and stored token, and alerts the server's
detail. -/
theorem failed_auth_changes_nothing_witness :
    ((handleAuth "http://localhost:8001" loadedState "login" [] rejectedLogin).1.token =
        loadedState.token ∧
      (handleAuth "http://localhost:8001" loadedState "login" [] rejectedLogin).1.user =
        loadedState.user ∧
      (handleAuth "http://localhost:8001" loadedState "login" [] rejectedLogin).1.currentView =
        loadedState.currentView ∧
      (handleAuth "http://localhost:8001" loadedState "login" [] rejectedLogin).1.storedToken =
        loadedState.storedToken) ∧
    (handleAuth "http://localhost:8001" loadedState "login" [] rejectedLogin).2 =
      [.fetch (handleAuthRequest "http://localhost:8001" "login" []),
        .alert "Incorrect email or password"] :=
  ⟨(failed_auth_changes_nothing "http://localhost:8001" loadedState "login" []
      rejectedLogin).2.1 rfl, by decide⟩

/-- C12 (instance): the signed-in state renders the authenticated page, and after
`handleLogout` it renders the `AuthScreen`. -/
theorem logout_returns_to_auth_screen_witness :
    (App loadedState).isMain = true ∧
    App (handleLogout loadedState) = .authScreen false :=
  ⟨(logout_returns_to_auth_screen loadedState).2.2.2.2.2.mpr ⟨"t0", rfl, by decide⟩,
    (logout_returns_to_auth_screen loadedState).2.2.2.2.1⟩

end BP
